import Mathlib

/-! The authenticated request pipeline of the film catalog backend.

A shallow embedding of the HTTP handlers of the identity service
(`authorization/delivery/http/api.go`), of the catalog service
(`films/delivery/api.go`) and of the auth-check middleware
(`middleware/middleware.go`).

A handler is a function from the collaborators it talks to (the use-case
core, the JSON decoder, the clock) and the request to a `Run`: the ordered
list of the effects it performs (core calls, header and cookie writes, log
lines, envelopes sent) and whether it ended in a Go runtime panic.
The use-case core is an interface implemented in another package; it is a
record of functions giving the result of every call.  The
`context.Context` argument of the core calls is always the request's own
context and is left out of the call records.
-/

namespace MwMetrics

/-! ## Go values -/

/-- Go error values: a sentinel made by `errors.New`, identified by its name,
or an error that wraps another one (`fmt.Errorf` with `%w`). `nil` is the
`none` of `Option GoError`. -/
inductive GoError where
  | sentinel (name : String)
  | wrap (msg : String) (inner : GoError)
  deriving DecidableEq, Repr

/-- The sentinel `usecase.ErrFoundFavorite`. -/
def ErrFoundFavorite : GoError := .sentinel "ErrFoundFavorite"

/-- The sentinel `usecase.ErrNotFound`. -/
def ErrNotFound : GoError := .sentinel "ErrNotFound"

/-- The sentinel `usecase.InvalideEmail`. -/
def InvalideEmail : GoError := .sentinel "InvalideEmail"

/-- Go `errors.Is(err, target)`: some error of the unwrap chain equals the target. -/
def errorsIs : GoError → GoError → Bool
  | .sentinel n, target => decide (GoError.sentinel n = target)
  | .wrap m e, target => decide (GoError.wrap m e = target) || errorsIs e target

/-- An instant, as Go `time.Time`: nanoseconds since the Unix epoch. -/
abbrev Time := Int

/-- The zero `time.Time` (January 1, year 1, 00:00 UTC). -/
def zeroTime : Time := -62135596800 * 1000000000

/-- Go `*time.Location`: `lookup` gives, for an instant in seconds since the
Unix epoch, the offset of the zone in force in seconds east of UTC, and the
first instant and the end of the period in which that zone is in force. -/
structure Location where
  lookup : Int → Int × Int × Int

/-- The zone offset that Go `time.Date` settles on for a wall-clock reading
given in seconds as if it were UTC: the offset in force at that number taken
as an instant, unless the instant it leads to lies outside the period of that
zone, in which case the offset in force at that instant. -/
def Location.offsetOfWall (loc : Location) (unix : Int) : Int :=
  if (loc.lookup unix).1 ≠ 0 then
    if unix - (loc.lookup unix).1 < (loc.lookup unix).2.1
        ∨ unix - (loc.lookup unix).1 ≥ (loc.lookup unix).2.2 then
      (loc.lookup (unix - (loc.lookup unix).1)).1
    else (loc.lookup unix).1
  else 0

/-- Go `t.AddDate(0, 0, days)` for a time `t` in location `loc`: the
wall-clock reading of `t` in `loc` (`t.Date()`, `t.Clock()`), moved by `days`
calendar days, which is `days` times 86400 seconds of wall clock, and read
back as an instant of `loc` by `time.Date`; the nanoseconds are kept. -/
def AddDateDays (loc : Location) (t : Time) (days : Int) : Time :=
  (t / 1000000000 + (loc.lookup (t / 1000000000)).1 + days * 86400
      - loc.offsetOfWall (t / 1000000000 + (loc.lookup (t / 1000000000)).1 + days * 86400))
    * 1000000000 + t % 1000000000

/-- Go `strconv.ParseUint(s, 10, 64)`, the digit loop: with base 10 given
explicitly neither a sign, nor a base marker, nor an underscore is a digit;
a value of `2^64` or more is a range error. -/
def ParseUintDigits : List Char → Nat → Option Nat
  | [], n => some n
  | c :: cs, n =>
    if c.isDigit then
      let n1 := n * 10 + (c.toNat - 48)
      if n1 < 2 ^ 64 then ParseUintDigits cs n1 else none
    else none

/-- Go `strconv.ParseUint(s, 10, 64)`: `none` stands for a non-nil error
(syntax error on the empty string or a non-digit, range error on overflow). -/
def ParseUint (s : String) : Option Nat :=
  if s.data = [] then none else ParseUintDigits s.data 0

/-! ## HTTP -/

def StatusOK : Nat := 200
def StatusBadRequest : Nat := 400
def StatusUnauthorized : Nat := 401
def StatusNotFound : Nat := 404
def StatusMethodNotAllowed : Nat := 405
def StatusNotAcceptable : Nat := 406
def StatusConflict : Nat := 409
def StatusPreconditionFailed : Nat := 412
def StatusInternalServerError : Nat := 500

def MethodGet : String := "GET"
def MethodPost : String := "POST"

/-- The keys under which values are stored in a request context:
`middleware.UserIDKey` and `requests.StatusKey`. -/
inductive contextKey where
  | UserIDKey
  | StatusKey
  deriving DecidableEq, Repr

/-- A value stored in a request context, with its dynamic Go type. -/
inductive CtxValue where
  | uint64 (n : Nat)
  | int (n : Int)
  | str (s : String)
  deriving DecidableEq, Repr

/-- Go `context.Context` restricted to its value chain, innermost binding first. -/
abbrev Context := List (contextKey × CtxValue)

/-- Go `context.WithValue(ctx, key, val)`. -/
def Context.WithValue (ctx : Context) (key : contextKey) (val : CtxValue) : Context :=
  (key, val) :: ctx

/-- Go `ctx.Value(key)`: the innermost binding of the key, `none` for `nil`. -/
def Context.Value (ctx : Context) (key : contextKey) : Option CtxValue :=
  match ctx.find? (fun kv => decide (kv.1 = key)) with
  | some kv => some kv.2
  | none => none

/-- Go `http.Cookie`, the fields the handlers touch. -/
structure Cookie where
  Name : String
  Value : String
  Path : String := ""
  Expires : Time := zeroTime
  HttpOnly : Bool := false
  deriving DecidableEq, Repr

/-- Go `http.Header` of a request: canonical key and first value. -/
abbrev Header := List (String × String)

/-- Go `h.Get(key)`: the key is matched without regard to ASCII case, an
absent key gives the empty string. -/
def Header.Get (h : Header) (key : String) : String :=
  match h.find? (fun kv => decide (kv.1.data.map Char.toLower = key.data.map Char.toLower)) with
  | some kv => kv.2
  | none => ""

/-- Go `url.Values` of the query string: key and first value. -/
abbrev Values := List (String × String)

/-- Go `v.Get(key)`: the first value of the key, the empty string when absent. -/
def Values.Get (v : Values) (key : String) : String :=
  match v.find? (fun kv => decide (kv.1 = key)) with
  | some kv => kv.2
  | none => ""

/-- The three outcomes of Go `r.FormFile(key)`: the uploaded file with the
name in its header and its content, `http.ErrMissingFile` (file and header
are `nil`), or another error (file and header are `nil`). -/
inductive FormFile where
  | file (Filename : String) (content : String)
  | missing
  | failed (err : GoError)
  deriving DecidableEq, Repr

/-- Go `*http.Request` as the handlers read it. `Body` is `none` when
`io.ReadAll(r.Body)` fails. `Form` is `none` when `r.ParseMultipartForm`
fails, and otherwise the parsed form that `r.FormValue` reads; `File` is the
outcome of `r.FormFile("photo")`. -/
structure Request where
  Method : String
  Path : String := ""
  Header : Header := []
  Cookies : List (String × String) := []
  Query : Values := []
  Body : Option String := some ""
  ctx : Context := []
  Form : Option Values := none
  File : FormFile := .missing
  deriving DecidableEq, Repr

/-- Go `r.Cookie(name)`: the first cookie of that name carried by the
request, with only name and value set; `none` stands for `http.ErrNoCookie`. -/
def Request.Cookie (r : Request) (name : String) : Option MwMetrics.Cookie :=
  if name = "" then none
  else
    match r.Cookies.find? (fun c => decide (c.1 = name)) with
    | some c => some { Name := c.1, Value := c.2 }
    | none => none

/-- Go `r.WithContext(ctx)`. -/
def Request.WithContext (r : Request) (ctx : Context) : Request := { r with ctx := ctx }

/-! ## Domain records -/

/-- The fields of `models.FilmItem` that `AddFilm` fills in. -/
structure FilmItem where
  Title : String
  Info : String
  Poster : String
  ReleaseDate : String
  Country : String
  deriving DecidableEq, Repr

/-- Modelled from the spec: `models.ActorItem` is declared in another package; an actor is a catalog entity with a numeric id and a name. -/
structure ActorItem where
  Id : Nat
  Name : String
  deriving DecidableEq, Repr

/-- Modelled from the spec: the user record returned by `FindUserAccount` is
declared in another package; the handlers read only its login. -/
structure User where
  Login : String
  Name : String := ""
  Email : String := ""
  Birthdate : String := ""
  Photo : String := ""
  Role : String := ""
  deriving DecidableEq, Repr

/-- Modelled from the spec: `session.Session` is declared in another package; a session holds the owning login and the absolute expiry. -/
structure Session where
  Login : String := ""
  ExpiresAt : Time := zeroTime
  deriving DecidableEq, Repr

/-- `requests.SigninRequest`, the JSON body of `/signin`. -/
structure SigninRequest where
  Login : String
  Password : String
  deriving DecidableEq, Repr

/-- `requests.SignupRequest`, the JSON body of `/signup`. -/
structure SignupRequest where
  Login : String
  Password : String
  Name : String
  BirthDate : String
  Email : String
  deriving DecidableEq, Repr

/-- `requests.CommentRequest`, the JSON body of `/api/v1/rating/add`. -/
structure CommentRequest where
  FilmId : Nat
  Rating : Nat
  deriving DecidableEq, Repr

/-- Modelled from the spec: `models.FilmResponse`, the film card returned by
`GetFilmInfo`, is declared in another package; the handler hands it on as it
is. -/
structure FilmResponse where
  Film : FilmItem
  Rating : Nat := 0
  Genres : List String := []
  Actors : List ActorItem := []
  deriving DecidableEq, Repr

/-- Modelled from the spec: `models.ActorResponse`, the actor card returned by
`GetActorInfo`, is declared in another package; the handler hands it on as it
is. -/
structure ActorResponse where
  Actor : ActorItem
  BirthDate : String := ""
  Career : List String := []
  Country : String := ""
  deriving DecidableEq, Repr

/-- Modelled from the spec: the release calendar returned by `GetCalendar` is
declared in another package; the handler hands it on as it is. -/
structure CalendarResponse where
  MonthName : String := ""
  CurrentDay : Nat := 0
  Days : List (Nat × String) := []
  deriving DecidableEq, Repr

/-- Modelled from the spec: the profile record returned by `GetUserProfile`
is declared in another package; the handler reads these five fields. -/
structure Profile where
  Email : String := ""
  Name : String := ""
  Login : String := ""
  Photo : String := ""
  Birthdate : String := ""
  deriving DecidableEq, Repr

/-- Modelled from the spec: `requests.FindFilmRequest`, the JSON body of
`/api/v1/find`, is declared in another package; the handler reads these
eight fields. -/
structure FindFilmRequest where
  Title : String := ""
  DateFrom : String := ""
  DateTo : String := ""
  RatingFrom : Nat := 0
  RatingTo : Nat := 0
  Mpaa : String := ""
  Genres : List String := []
  Actors : List String := []
  deriving DecidableEq, Repr

/-- Modelled from the spec: `requests.FindActorRequest`, the JSON body of
`/api/v1/search/actor`, is declared in another package; the handler reads
these five fields. -/
structure FindActorRequest where
  Name : String := ""
  BirthDate : String := ""
  Films : List String := []
  Career : List String := []
  Country : String := ""
  deriving DecidableEq, Repr

/-- Go `json.Unmarshal` into each of the request records; `none` stands for a
non-nil error. -/
structure Json where
  UnmarshalSignin : String → Option SigninRequest
  UnmarshalSignup : String → Option SignupRequest
  UnmarshalComment : String → Option CommentRequest

/-! ## Effects -/

/-- The `body` of a response envelope. -/
inductive Body where
  | nil
  | authCheck (Login Role : String)
  | films (items : List FilmItem)
  | actors (items : List ActorItem)
  | filmsResponse (Page PageSize Total : Nat) (CollectionName : String)
      (Films : List FilmItem)
  | film (f : FilmResponse)
  | actor (a : ActorResponse)
  | calendar (c : CalendarResponse)
  | profile (Email Name Login Photo BirthDate : String)
  deriving DecidableEq, Repr

/-- A call into the use-case core, with its arguments in source order. -/
inductive Call where
  | GetUserId (sid : String)
  | FavoriteFilmsAdd (userId filmId : Nat)
  | FavoriteFilmsRemove (userId filmId : Nat)
  | FavoriteFilms (userId start count : Nat)
  | FavoriteActorsAdd (userId actorId : Nat)
  | FavoriteActorsRemove (userId actorId : Nat)
  | FavoriteActors (userId start count : Nat)
  | AddRating (filmId userId rating : Nat)
  | CheckCsrfToken (token : String)
  | CreateCsrfToken
  | FindUserAccount (login password : String)
  | CreateSession (login : String)
  | FindUserByLogin (login : String)
  | CreateUserAccount (login password name birthDate email : String)
  | FindActiveSession (sid : String)
  | KillSession (sid : String)
  | GetUserName (sid : String)
  | GetUserRole (login : String)
  | GetUserProfile (login : String)
  | CheckPassword (login password : String)
  | EditProfile (prevLogin login password email birthDate filename : String)
  | GetFilmsAndGenreTitle (genreId start count : Nat)
  | GetFilmInfo (filmId : Nat)
  | GetActorInfo (actorId : Nat)
  | FindFilm (title dateFrom dateTo : String) (ratingFrom ratingTo : Nat) (mpaa : String)
      (genres actors : List String)
  | FindActor (name birthDate : String) (films career : List String) (country : String)
  | GetCalendar
  | AddFilm (film : FilmItem) (genres actors : List Nat)
  deriving DecidableEq, Repr

/-- One effect of a handler. -/
inductive Event where
  | call (c : Call)
  | logError (msg : String)
  | setHeader (key value : String)
  | setCookie (c : Cookie)
  | send (status : Nat) (body : Body)
  | println (actors genres : List Nat)
  | openFile (name : String)
  | copy (name : String) (content : String)
  | close (name : String)
  deriving DecidableEq, Repr

/-- What a handler did: its effects in order, and whether it ended in a
runtime panic instead of returning. -/
structure Run where
  events : List Event
  panicked : Bool := false
  deriving DecidableEq, Repr

/-- The file system as the upload handlers use it: the error of
`os.OpenFile(name, O_WRONLY|O_CREATE, 0666)` and the error of `io.Copy` of the
uploaded content into the file of that name. -/
structure Os where
  OpenFile : String → Option GoError
  Copy : String → String → Option GoError

/-- Go `if err != nil { lg.Error(msg, "err", err.Error()) }`. -/
def logIfError (err : Option GoError) (msg : String) : List Event :=
  match err with
  | some _ => [.logError msg]
  | none => []

/-- Modelled from the spec: `requests.SendResponse` is declared in another
package; it serialises the envelope with the given status and body and
mirrors the status on the HTTP status line. -/
def SendResponse (status : Nat) (body : Body) : List Event := [.send status body]

/-- The envelopes a run sent, in order. -/
def Run.sent (x : Run) : List (Nat × Body) :=
  x.events.filterMap (fun e => match e with
    | .send s b => some (s, b)
    | _ => none)

/-- The core calls a run made, in order. -/
def Run.calls (x : Run) : List Call :=
  x.events.filterMap (fun e => match e with
    | .call c => some c
    | _ => none)

/-- The cookies a run set, in order. -/
def Run.cookies (x : Run) : List Cookie :=
  x.events.filterMap (fun e => match e with
    | .setCookie c => some c
    | _ => none)

/-- The response headers a run set, in order. -/
def Run.headers (x : Run) : List (String × String) :=
  x.events.filterMap (fun e => match e with
    | .setHeader k v => some (k, v)
    | _ => none)

/-! ## The auth-check middleware (`middleware/middleware.go`) -/

namespace middleware

/-- The part of the catalog use-case core the middleware calls. -/
structure Core where
  GetUserId : String → Nat × Option GoError

/-- What the wrapped handler does when it is served a request: its own run,
and the request as it leaves it (a handler holds a pointer to the request
and may write through it). -/
structure Downstream where
  run : Run
  req : Request

/-- One effect of the middleware: an action of its own, or one invocation
`next.ServeHTTP(w, r)` with the request handed over and everything the
wrapped handler did with it. -/
inductive MwEvent where
  | call (c : Call)
  | logError (msg : String)
  | next (r : Request) (d : Downstream)
  | observe (status : Int) (path : String)
  | inc (status : Int) (path : String)

/-- What the middleware did, and whether it ended in a runtime panic. -/
structure MwRun where
  events : List MwEvent
  panicked : Bool := false

/-- The requests with which the wrapped handler was invoked, in order. -/
def MwRun.served (x : MwRun) : List Request :=
  x.events.filterMap (fun e => match e with
    | .next r _ => some r
    | _ => none)

/-- The handler returned by `AuthCheck(next, core, lg, mt)` applied to a
request. A panic of the wrapped handler propagates; the type assertion
`.(int)` on the status panics unless the context holds an `int`. -/
def AuthCheck (next : Request → Downstream) (core : Core) (r : Request) : MwRun :=
  match r.Cookie "session_id" with
  | none =>
    { events := [.next r (next r)], panicked := (next r).run.panicked }
  | some session =>
    match core.GetUserId session.Value with
    | (_, some _) =>
      { events := [.call (.GetUserId session.Value), .logError "auth check error",
                   .next r (next r)],
        panicked := (next r).run.panicked }
    | (userId, none) =>
      let r1 := r.WithContext (r.ctx.WithValue .UserIDKey (.uint64 userId))
      let d := next r1
      if d.run.panicked then
        { events := [.call (.GetUserId session.Value), .next r1 d], panicked := true }
      else
        match d.req.ctx.Value .StatusKey with
        | some (.int status) =>
          { events := [.call (.GetUserId session.Value), .next r1 d,
                       .observe status d.req.Path, .inc status d.req.Path],
            panicked := false }
        | _ =>
          { events := [.call (.GetUserId session.Value), .next r1 d], panicked := true }

/-- The handler returned by `CollectMetrics(next, lg, mt)` applied to a
request. -/
def CollectMetrics (next : Request → Downstream) (r : Request) : MwRun :=
  let d := next r
  if d.run.panicked then
    { events := [.next r d], panicked := true }
  else
    match d.req.ctx.Value .StatusKey with
    | some (.int status) =>
      { events := [.next r d, .observe status d.req.Path, .inc status d.req.Path],
        panicked := false }
    | _ => { events := [.next r d], panicked := true }

/-- The latency observations a run recorded, each with its status and path
labels, in order. -/
def MwRun.observations (x : MwRun) : List (Int × String) :=
  x.events.filterMap (fun e => match e with
    | .observe status path => some (status, path)
    | _ => none)

/-- The hit-counter increments a run recorded, each with its status and path
labels, in order. -/
def MwRun.hits (x : MwRun) : List (Int × String) :=
  x.events.filterMap (fun e => match e with
    | .inc status path => some (status, path)
    | _ => none)

end middleware

/-! ## The catalog handlers (`films/delivery/api.go`) -/

namespace films

/-- The part of `usecase.ICore` of the catalog service that the
identity-consuming handlers call. -/
structure ICore where
  FavoriteFilmsAdd : Nat → Nat → Option GoError
  FavoriteFilmsRemove : Nat → Nat → Option GoError
  FavoriteFilms : Nat → Nat → Nat → List FilmItem × Option GoError
  FavoriteActorsAdd : Nat → Nat → Option GoError
  FavoriteActorsRemove : Nat → Nat → Option GoError
  FavoriteActors : Nat → Nat → Nat → List ActorItem × Option GoError
  AddRating : Nat → Nat → Nat → Bool × Option GoError

/-- Go `r.Context().Value(middleware.UserIDKey).(uint64)`: `none` is the
runtime panic of the unchecked type assertion, on a missing value or on a
value of another type. -/
def userIdOf (r : Request) : Option Nat :=
  match r.ctx.Value .UserIDKey with
  | some (.uint64 userId) => some userId
  | _ => none

/-- Go `uint64((page-1)*pageSize)`: unsigned 64-bit arithmetic. -/
def pageStart (page pageSize : Nat) : Nat :=
  (((page + 2 ^ 64 - 1) % 2 ^ 64) * pageSize) % 2 ^ 64

/-- `API.FavoriteFilmsAdd`. -/
def FavoriteFilmsAdd (core : ICore) (r : Request) : Run :=
  if r.Method ≠ MethodGet then
    { events := SendResponse StatusMethodNotAllowed .nil }
  else
    match userIdOf r with
    | none => { events := [], panicked := true }
    | some userId =>
      match ParseUint (r.Query.Get "film_id") with
      | none => { events := SendResponse StatusBadRequest .nil }
      | some filmId =>
        match core.FavoriteFilmsAdd userId filmId with
        | some err =>
          if errorsIs err ErrFoundFavorite then
            { events := .call (.FavoriteFilmsAdd userId filmId)
                :: SendResponse StatusNotAcceptable .nil }
          else
            { events := .call (.FavoriteFilmsAdd userId filmId)
                :: .logError "favorite films error"
                :: SendResponse StatusInternalServerError .nil }
        | none =>
          { events := .call (.FavoriteFilmsAdd userId filmId) :: SendResponse StatusOK .nil }

/-- `API.FavoriteFilmsRemove`. -/
def FavoriteFilmsRemove (core : ICore) (r : Request) : Run :=
  if r.Method ≠ MethodGet then
    { events := SendResponse StatusMethodNotAllowed .nil }
  else
    match userIdOf r with
    | none => { events := [], panicked := true }
    | some userId =>
      match ParseUint (r.Query.Get "film_id") with
      | none => { events := SendResponse StatusBadRequest .nil }
      | some filmId =>
        match core.FavoriteFilmsRemove userId filmId with
        | some _ =>
          { events := .call (.FavoriteFilmsRemove userId filmId)
              :: .logError "favorite films error"
              :: SendResponse StatusInternalServerError .nil }
        | none =>
          { events := .call (.FavoriteFilmsRemove userId filmId) :: SendResponse StatusOK .nil }

/-- `API.FavoriteFilms`. -/
def FavoriteFilms (core : ICore) (r : Request) : Run :=
  if r.Method ≠ MethodGet then
    { events := SendResponse StatusMethodNotAllowed .nil }
  else
    match userIdOf r with
    | none => { events := [], panicked := true }
    | some userId =>
      let page := (ParseUint (r.Query.Get "page")).getD 1
      let pageSize := (ParseUint (r.Query.Get "per_page")).getD 8
      match core.FavoriteFilms userId (pageStart page pageSize) pageSize with
      | (_, some _) =>
        { events := .call (.FavoriteFilms userId (pageStart page pageSize) pageSize)
            :: .logError "favorite films error"
            :: SendResponse StatusInternalServerError .nil }
      | (films, none) =>
        { events := .call (.FavoriteFilms userId (pageStart page pageSize) pageSize)
            :: SendResponse StatusOK (.films films) }

/-- `API.AddRating`. The status set on an error of the core is kept only when
`found` is false: the `found` test follows without a return in between. -/
def AddRating (core : ICore) (json : Json) (r : Request) : Run :=
  if r.Method ≠ MethodPost then
    { events := SendResponse StatusMethodNotAllowed .nil }
  else
    match userIdOf r with
    | none => { events := [], panicked := true }
    | some userId =>
      match r.Body with
      | none => { events := SendResponse StatusBadRequest .nil }
      | some body =>
        match json.UnmarshalComment body with
        | none => { events := SendResponse StatusBadRequest .nil }
        | some commentRequest =>
          let c := Call.AddRating commentRequest.FilmId userId commentRequest.Rating
          match core.AddRating commentRequest.FilmId userId commentRequest.Rating with
          | (found, some _) =>
            if found then
              { events := .call c :: .logError "add rating error"
                  :: SendResponse StatusNotAcceptable .nil }
            else
              { events := .call c :: .logError "add rating error"
                  :: SendResponse StatusInternalServerError .nil }
          | (found, none) =>
            if found then
              { events := .call c :: SendResponse StatusNotAcceptable .nil }
            else
              { events := .call c :: SendResponse StatusOK .nil }

/-- `API.FavoriteActorsAdd`. -/
def FavoriteActorsAdd (core : ICore) (r : Request) : Run :=
  if r.Method ≠ MethodGet then
    { events := SendResponse StatusMethodNotAllowed .nil }
  else
    match userIdOf r with
    | none => { events := [], panicked := true }
    | some userId =>
      match ParseUint (r.Query.Get "actor_id") with
      | none => { events := SendResponse StatusBadRequest .nil }
      | some actorId =>
        match core.FavoriteActorsAdd userId actorId with
        | some err =>
          if errorsIs err ErrFoundFavorite then
            { events := .call (.FavoriteActorsAdd userId actorId)
                :: SendResponse StatusNotAcceptable .nil }
          else
            { events := .call (.FavoriteActorsAdd userId actorId)
                :: .logError "favorite actors error"
                :: SendResponse StatusInternalServerError .nil }
        | none =>
          { events := .call (.FavoriteActorsAdd userId actorId) :: SendResponse StatusOK .nil }

/-- `API.FavoriteActorsRemove`. -/
def FavoriteActorsRemove (core : ICore) (r : Request) : Run :=
  if r.Method ≠ MethodGet then
    { events := SendResponse StatusMethodNotAllowed .nil }
  else
    match userIdOf r with
    | none => { events := [], panicked := true }
    | some userId =>
      match ParseUint (r.Query.Get "actor_id") with
      | none => { events := SendResponse StatusBadRequest .nil }
      | some actorId =>
        match core.FavoriteActorsRemove userId actorId with
        | some _ =>
          { events := .call (.FavoriteActorsRemove userId actorId)
              :: .logError "favorite actors error"
              :: SendResponse StatusInternalServerError .nil }
        | none =>
          { events := .call (.FavoriteActorsRemove userId actorId) :: SendResponse StatusOK .nil }

/-- `API.FavoriteActors`. -/
def FavoriteActors (core : ICore) (r : Request) : Run :=
  if r.Method ≠ MethodGet then
    { events := SendResponse StatusMethodNotAllowed .nil }
  else
    match userIdOf r with
    | none => { events := [], panicked := true }
    | some userId =>
      let page := (ParseUint (r.Query.Get "page")).getD 1
      let pageSize := (ParseUint (r.Query.Get "per_page")).getD 8
      match core.FavoriteActors userId (pageStart page pageSize) pageSize with
      | (_, some _) =>
        { events := .call (.FavoriteActors userId (pageStart page pageSize) pageSize)
            :: .logError "favorite actors error"
            :: SendResponse StatusInternalServerError .nil }
      | (actors, none) =>
        { events := .call (.FavoriteActors userId (pageStart page pageSize) pageSize)
            :: SendResponse StatusOK (.actors actors) }

/-- The whole of `usecase.ICore` of the catalog service: the part above and
the calls of the handlers that need no user id. -/
structure Core extends ICore where
  GetFilmsAndGenreTitle : Nat → Nat → Nat → List FilmItem × String × Option GoError
  GetFilmInfo : Nat → FilmResponse × Option GoError
  GetActorInfo : Nat → ActorResponse × Option GoError
  FindFilm : String → String → String → Nat → Nat → String → List String → List String →
    List FilmItem × Option GoError
  FindActor : String → String → List String → List String → String →
    List ActorItem × Option GoError
  GetCalendar : CalendarResponse × Option GoError
  AddFilm : FilmItem → List Nat → List Nat → Option GoError

/-- `API.Films`. -/
def Films (core : Core) (r : Request) : Run :=
  if r.Method ≠ MethodGet then
    { events := SendResponse StatusMethodNotAllowed .nil }
  else
    let page := (ParseUint (r.Query.Get "page")).getD 1
    let pageSize := (ParseUint (r.Query.Get "page_size")).getD 8
    let genreId := (ParseUint (r.Query.Get "collection_id")).getD 0
    match core.GetFilmsAndGenreTitle genreId (pageStart page pageSize) pageSize with
    | (_, _, some _) =>
      { events := .call (.GetFilmsAndGenreTitle genreId (pageStart page pageSize) pageSize)
          :: .logError "get films error"
          :: SendResponse StatusInternalServerError .nil }
    | (films, genre, none) =>
      { events := .call (.GetFilmsAndGenreTitle genreId (pageStart page pageSize) pageSize)
          :: SendResponse StatusOK (.filmsResponse page pageSize films.length genre films) }

/-- `API.Film`. -/
def Film (core : Core) (r : Request) : Run :=
  if r.Method ≠ MethodGet then
    { events := SendResponse StatusMethodNotAllowed .nil }
  else
    match ParseUint (r.Query.Get "film_id") with
    | none => { events := SendResponse StatusBadRequest .nil }
    | some filmId =>
      match core.GetFilmInfo filmId with
      | (_, some err) =>
        if errorsIs err ErrNotFound then
          { events := .call (.GetFilmInfo filmId) :: SendResponse StatusNotFound .nil }
        else
          { events := .call (.GetFilmInfo filmId) :: .logError "film error"
              :: SendResponse StatusInternalServerError .nil }
      | (film, none) =>
        { events := .call (.GetFilmInfo filmId) :: SendResponse StatusOK (.film film) }

/-- `API.Actor`. -/
def Actor (core : Core) (r : Request) : Run :=
  if r.Method ≠ MethodGet then
    { events := SendResponse StatusMethodNotAllowed .nil }
  else
    match ParseUint (r.Query.Get "actor_id") with
    | none => { events := .logError "actor error" :: SendResponse StatusBadRequest .nil }
    | some actorId =>
      match core.GetActorInfo actorId with
      | (_, some err) =>
        if errorsIs err ErrNotFound then
          { events := .call (.GetActorInfo actorId) :: SendResponse StatusNotFound .nil }
        else
          { events := .call (.GetActorInfo actorId) :: .logError "actor error"
              :: SendResponse StatusInternalServerError .nil }
      | (actor, none) =>
        { events := .call (.GetActorInfo actorId) :: SendResponse StatusOK (.actor actor) }

/-- `API.FindFilm`; `unmarshal` is `json.Unmarshal` into a
`requests.FindFilmRequest`. -/
def FindFilm (core : Core) (unmarshal : String → Option FindFilmRequest) (r : Request) :
    Run :=
  if r.Method ≠ MethodPost then
    { events := SendResponse StatusMethodNotAllowed .nil }
  else
    match r.Body with
    | none => { events := .logError "find film error" :: SendResponse StatusBadRequest .nil }
    | some body =>
      match unmarshal body with
      | none =>
        { events := .logError "find film error" :: SendResponse StatusBadRequest .nil }
      | some request =>
        let c := Call.FindFilm request.Title request.DateFrom request.DateTo
          request.RatingFrom request.RatingTo request.Mpaa request.Genres request.Actors
        match core.FindFilm request.Title request.DateFrom request.DateTo
            request.RatingFrom request.RatingTo request.Mpaa request.Genres
            request.Actors with
        | (_, some err) =>
          if errorsIs err ErrNotFound then
            { events := .call c :: SendResponse StatusNotFound .nil }
          else
            { events := .call c :: .logError "find film error"
                :: SendResponse StatusInternalServerError .nil }
        | (films, none) =>
          { events := .call c
              :: SendResponse StatusOK (.filmsResponse 0 0 films.length "" films) }

/-- `API.Calendar`. -/
def Calendar (core : Core) (r : Request) : Run :=
  if r.Method ≠ MethodGet then
    { events := SendResponse StatusMethodNotAllowed .nil }
  else
    match core.GetCalendar with
    | (_, some _) =>
      { events := .call .GetCalendar :: .logError "calendar error"
          :: SendResponse StatusInternalServerError .nil }
    | (calendar, none) =>
      { events := .call .GetCalendar :: SendResponse StatusOK (.calendar calendar) }

/-- `API.FindActor`; `unmarshal` is `json.Unmarshal` into a
`requests.FindActorRequest`. -/
def FindActor (core : Core) (unmarshal : String → Option FindActorRequest) (r : Request) :
    Run :=
  if r.Method ≠ MethodPost then
    { events := SendResponse StatusMethodNotAllowed .nil }
  else
    match r.Body with
    | none => { events := .logError "find actor error" :: SendResponse StatusBadRequest .nil }
    | some body =>
      match unmarshal body with
      | none =>
        { events := .logError "find actor error" :: SendResponse StatusBadRequest .nil }
      | some request =>
        let c := Call.FindActor request.Name request.BirthDate request.Films request.Career
          request.Country
        match core.FindActor request.Name request.BirthDate request.Films request.Career
            request.Country with
        | (_, some err) =>
          if errorsIs err ErrNotFound then
            { events := .call c :: SendResponse StatusNotFound .nil }
          else
            { events := .call c :: .logError "find actor error"
                :: SendResponse StatusInternalServerError .nil }
        | (actors, none) =>
          { events := .call c :: SendResponse StatusOK (.actors actors) }

/-- Go `s[lo:hi]` on the characters of a string, for `lo ≤ hi ≤ len(s)`. -/
def slice (s : List Char) (lo hi : Nat) : String := ⟨(s.drop lo).take (hi - lo)⟩

/-- The loop `for i := 0; i < len(s); i++` over a comma-separated list in
`AddFilm`, from index `i` on with `n` iterations left: at every comma the
piece `s[prev:i]` is parsed and appended and `prev` moves behind the comma.
Positions count characters where Go counts bytes; the comma is one byte and
no byte of a longer UTF-8 character equals it, so the pieces are the same.
The result is `none` when a piece does not parse (the handler answers 400),
and otherwise the final `prev` and the values collected. -/
def parseIdsLoop (s : List Char) : Nat → Nat → Nat → List Nat → Option (Nat × List Nat)
  | 0, _, prev, ids => some (prev, ids)
  | n + 1, i, prev, ids =>
    if s.get? i = some ',' then
      match ParseUint (slice s prev i) with
      | none => none
      | some id => parseIdsLoop s n (i + 1) (i + 1) (ids ++ [id])
    else parseIdsLoop s n (i + 1) prev ids

/-- The hand-rolled parse of a comma-separated list in `AddFilm`: the loop
from index 0 with `prev = 0`, then the parse of the last piece `s[prev:]`. -/
def parseIds (s : String) : Option (List Nat) :=
  match parseIdsLoop s.data s.data.length 0 0 [] with
  | none => none
  | some (prev, ids) =>
    match ParseUint ⟨s.data.drop prev⟩ with
    | none => none
    | some id => some (ids ++ [id])

/-- `API.AddFilm`. The name of the poster is read from the file header before
any test of it: on `http.ErrMissingFile` the header is `nil` and the read is
a nil dereference. -/
def AddFilm (core : Core) (os : Os) (r : Request) : Run :=
  if r.Method ≠ MethodPost then
    { events := SendResponse StatusMethodNotAllowed .nil }
  else
    match r.Form with
    | none => { events := .logError "add film error" :: SendResponse StatusBadRequest .nil }
    | some form =>
      let title := form.Get "title"
      let info := form.Get "info"
      let date := form.Get "date"
      let country := form.Get "country"
      match parseIds (form.Get "genre") with
      | none => { events := .logError "add film error" :: SendResponse StatusBadRequest .nil }
      | some genres =>
        match parseIds (form.Get "actors") with
        | none =>
          { events := .logError "add film error" :: SendResponse StatusBadRequest .nil }
        | some actors =>
          match r.File with
          | .failed _ =>
            { events := [.println actors genres, .logError "add film error"]
                ++ SendResponse StatusInternalServerError .nil }
          | .missing => { events := [.println actors genres], panicked := true }
          | .file name content =>
            let filename := "/icons/" ++ name
            let path := "/home/ubuntu/frontend-project" ++ filename
            let film : FilmItem :=
              { Title := title, Info := info, Poster := filename, ReleaseDate := date,
                Country := country }
            match os.OpenFile path with
            | some _ =>
              { events := [.println actors genres, .openFile path,
                  .logError "add film error"]
                  ++ SendResponse StatusInternalServerError .nil }
            | none =>
              match os.Copy path content with
              | some _ =>
                { events := [.println actors genres, .openFile path, .copy path content,
                    .logError "add film error"]
                    ++ SendResponse StatusInternalServerError .nil ++ [.close path] }
              | none =>
                match core.AddFilm film genres actors with
                | some _ =>
                  { events := [.println actors genres, .openFile path, .copy path content,
                      .call (.AddFilm film genres actors), .logError "add film error"]
                      ++ SendResponse StatusInternalServerError .nil ++ [.close path] }
                | none =>
                  { events := [.println actors genres, .openFile path, .copy path content,
                      .call (.AddFilm film genres actors)]
                      ++ SendResponse StatusOK .nil ++ [.close path] }

end films

/-! ## The identity handlers (`authorization/delivery/http/api.go`) -/

namespace authorization

/-- The part of `usecase.ICore` of the identity service that the session and
sign-up handlers call. `FindUserAccount` returns a reference to the user,
`none` for `nil`. `CreateSession` returns the session id, the session and the
error, all three on every call. -/
structure ICore where
  CheckCsrfToken : String → Bool × Option GoError
  FindUserAccount : String → String → Option User × Bool × Option GoError
  CreateSession : String → String × Session × Option GoError
  FindUserByLogin : String → Bool × Option GoError
  CreateUserAccount : String → String → String → String → String → Option GoError
  FindActiveSession : String → Bool × Option GoError
  KillSession : String → Option GoError
  GetUserName : String → String × Option GoError
  GetUserRole : String → String × Option GoError

/-- `API.LogoutSession`; `now` is the reading of `time.Now()` and `loc` is
`time.Local`, the location of that reading. -/
def LogoutSession (core : ICore) (loc : Location) (now : Time) (r : Request) : Run :=
  match r.Cookie "session_id" with
  | none => { events := SendResponse StatusUnauthorized .nil }
  | some session =>
    if !(core.FindActiveSession session.Value).1 then
      { events := .call (.FindActiveSession session.Value)
          :: SendResponse StatusUnauthorized .nil }
    else
      match core.KillSession session.Value with
      | some _ =>
        { events := [.call (.FindActiveSession session.Value),
                     .call (.KillSession session.Value),
                     .logError "failed to kill session",
                     .setCookie { session with Expires := AddDateDays loc now (-1) }]
            ++ SendResponse StatusOK .nil }
      | none =>
        { events := [.call (.FindActiveSession session.Value),
                     .call (.KillSession session.Value),
                     .setCookie { session with Expires := AddDateDays loc now (-1) }]
            ++ SendResponse StatusOK .nil }

/-- `API.AuthAccept`. -/
def AuthAccept (core : ICore) (r : Request) : Run :=
  match r.Cookie "session_id" with
  | none => { events := SendResponse StatusUnauthorized .nil }
  | some session =>
    if !(core.FindActiveSession session.Value).1 then
      { events := .call (.FindActiveSession session.Value)
          :: SendResponse StatusUnauthorized .nil }
    else
      match core.GetUserName session.Value with
      | (_, some _) =>
        { events := [.call (.FindActiveSession session.Value),
                     .call (.GetUserName session.Value),
                     .logError "auth accept error"]
            ++ SendResponse StatusInternalServerError .nil }
      | (login, none) =>
        match core.GetUserRole login with
        | (_, some _) =>
          { events := [.call (.FindActiveSession session.Value),
                       .call (.GetUserName session.Value),
                       .call (.GetUserRole login),
                       .logError "auth accept error"]
              ++ SendResponse StatusInternalServerError .nil }
        | (role, none) =>
          { events := [.call (.FindActiveSession session.Value),
                       .call (.GetUserName session.Value),
                       .call (.GetUserRole login)]
              ++ SendResponse StatusOK (.authCheck login role) }

/-- `API.Signin`. The `found` result of `CheckCsrfToken` and the error of
`CreateSession` are assigned to the blank identifier. -/
def Signin (core : ICore) (json : Json) (r : Request) : Run :=
  if r.Method ≠ MethodPost then
    { events := SendResponse StatusMethodNotAllowed .nil }
  else
    let csrfToken := r.Header.Get "x-csrf-token"
    match core.CheckCsrfToken csrfToken with
    | (_, some _) =>
      { events := [.call (.CheckCsrfToken csrfToken), .setHeader "X-CSRF-Token" "null"]
          ++ SendResponse StatusPreconditionFailed .nil }
    | (_, none) =>
      match r.Body with
      | none =>
        { events := .call (.CheckCsrfToken csrfToken) :: SendResponse StatusBadRequest .nil }
      | some body =>
        match json.UnmarshalSignin body with
        | none =>
          { events := .call (.CheckCsrfToken csrfToken) :: SendResponse StatusBadRequest .nil }
        | some request =>
          match core.FindUserAccount request.Login request.Password with
          | (_, _, some _) =>
            { events := [.call (.CheckCsrfToken csrfToken),
                         .call (.FindUserAccount request.Login request.Password),
                         .logError "Signin error"]
                ++ SendResponse StatusInternalServerError .nil }
          | (user, found, none) =>
            if !found then
              { events := [.call (.CheckCsrfToken csrfToken),
                           .call (.FindUserAccount request.Login request.Password)]
                  ++ SendResponse StatusUnauthorized .nil }
            else
              match user with
              | none =>
                { events := [.call (.CheckCsrfToken csrfToken),
                             .call (.FindUserAccount request.Login request.Password)],
                  panicked := true }
              | some user =>
                match core.CreateSession user.Login with
                | (sid, session, _) =>
                  { events := [.call (.CheckCsrfToken csrfToken),
                               .call (.FindUserAccount request.Login request.Password),
                               .call (.CreateSession user.Login),
                               .setCookie { Name := "session_id", Value := sid, Path := "/",
                                            Expires := session.ExpiresAt, HttpOnly := true }]
                      ++ SendResponse StatusOK .nil }

/-- `API.Signup`. Both tests on the error of `CreateUserAccount` set the
status to 400. -/
def Signup (core : ICore) (json : Json) (r : Request) : Run :=
  if r.Method ≠ MethodPost then
    { events := SendResponse StatusMethodNotAllowed .nil }
  else
    let csrfToken := r.Header.Get "x-csrf-token"
    match core.CheckCsrfToken csrfToken with
    | (_, some _) =>
      { events := [.call (.CheckCsrfToken csrfToken), .setHeader "X-CSRF-Token" "null"]
          ++ SendResponse StatusPreconditionFailed .nil }
    | (_, none) =>
      match r.Body with
      | none =>
        { events := [.call (.CheckCsrfToken csrfToken), .logError "Signup error"]
            ++ SendResponse StatusBadRequest .nil }
      | some body =>
        match json.UnmarshalSignup body with
        | none =>
          { events := [.call (.CheckCsrfToken csrfToken), .logError "Signup error"]
              ++ SendResponse StatusBadRequest .nil }
        | some request =>
          match core.FindUserByLogin request.Login with
          | (_, some _) =>
            { events := [.call (.CheckCsrfToken csrfToken),
                         .call (.FindUserByLogin request.Login),
                         .logError "Signup error"]
                ++ SendResponse StatusInternalServerError .nil }
          | (found, none) =>
            if found then
              { events := [.call (.CheckCsrfToken csrfToken),
                           .call (.FindUserByLogin request.Login)]
                  ++ SendResponse StatusConflict .nil }
            else
              let create := Call.CreateUserAccount request.Login request.Password
                request.Name request.BirthDate request.Email
              match core.CreateUserAccount request.Login request.Password
                  request.Name request.BirthDate request.Email with
              | some err =>
                if err = InvalideEmail then
                  { events := [.call (.CheckCsrfToken csrfToken),
                               .call (.FindUserByLogin request.Login),
                               .call create,
                               .logError "create user error",
                               .logError "failed to create user account"]
                      ++ SendResponse StatusBadRequest .nil }
                else
                  { events := [.call (.CheckCsrfToken csrfToken),
                               .call (.FindUserByLogin request.Login),
                               .call create,
                               .logError "failed to create user account"]
                      ++ SendResponse StatusBadRequest .nil }
              | none =>
                { events := [.call (.CheckCsrfToken csrfToken),
                             .call (.FindUserByLogin request.Login),
                             .call create]
                    ++ SendResponse StatusOK .nil }

/-- The whole of `usecase.ICore` of the identity service: the part above and
the calls of the CSRF issuance and of the profile handlers. `GetUserProfile`
returns a reference to the profile, `none` for `nil`. -/
structure Core extends ICore where
  CreateCsrfToken : String × Option GoError
  GetUserProfile : String → Option Profile × Option GoError
  CheckPassword : String → String → Bool × Option GoError
  EditProfile : String → String → String → String → String → String → Option GoError

/-- `API.GetCsrfToken`. -/
def GetCsrfToken (core : Core) (r : Request) : Run :=
  let csrfToken := r.Header.Get "x-csrf-token"
  match core.CheckCsrfToken csrfToken with
  | (_, some _) =>
    { events := [.call (.CheckCsrfToken csrfToken), .setHeader "X-CSRF-Token" "null"]
        ++ SendResponse StatusInternalServerError .nil }
  | (found, none) =>
    if csrfToken ≠ "" ∧ found = true then
      { events := [.call (.CheckCsrfToken csrfToken), .setHeader "X-CSRF-Token" csrfToken]
          ++ SendResponse StatusOK .nil }
    else
      match core.CreateCsrfToken with
      | (_, some _) =>
        { events := [.call (.CheckCsrfToken csrfToken), .call .CreateCsrfToken,
                     .setHeader "X-CSRF-Token" "null"]
            ++ SendResponse StatusInternalServerError .nil }
      | (token, none) =>
        { events := [.call (.CheckCsrfToken csrfToken), .call .CreateCsrfToken,
                     .setHeader "X-CSRF-Token" token]
            ++ SendResponse StatusOK .nil }

/-- `API.Profile`, the branch `r.Method == http.MethodGet`. -/
def ProfileGet (core : Core) (r : Request) : Run :=
  match r.Cookie "session_id" with
  | none => { events := SendResponse StatusUnauthorized .nil }
  | some session =>
    match core.GetUserName session.Value with
    | (login, err) =>
      match core.GetUserProfile login with
      | (_, some _) =>
        { events := .call (.GetUserName session.Value)
            :: logIfError err "Get Profile error"
            ++ .call (.GetUserProfile login)
            :: SendResponse StatusInternalServerError .nil }
      | (none, none) =>
        { events := .call (.GetUserName session.Value)
            :: logIfError err "Get Profile error"
            ++ [.call (.GetUserProfile login)],
          panicked := true }
      | (some profile, none) =>
        { events := .call (.GetUserName session.Value)
            :: logIfError err "Get Profile error"
            ++ .call (.GetUserProfile login)
            :: SendResponse StatusOK
                (.profile profile.Email profile.Name profile.Login profile.Photo
                  profile.Birthdate) }

/-- `API.Profile`, from the second read of the cookie on: the POST branch.
The log line of the form error reads `err.Error()` of the error of
`GetUserName`, not of `err1`: with `err == nil` this call is a nil
dereference. After `CheckPassword` the variable `err` holds its error, which
is what the test before the upload looks at. -/
def ProfilePost (core : Core) (os : Os) (r : Request) : Run :=
  match r.Cookie "session_id" with
  | none => { events := SendResponse StatusUnauthorized .nil }
  | some session =>
    match core.GetUserName session.Value with
    | (prevLogin, err) =>
      let pre := Event.call (.GetUserName session.Value) :: logIfError err "Get Profile error"
      match r.Form with
      | none =>
        match err with
        | none => { events := pre, panicked := true }
        | some _ =>
          { events := pre ++ .logError "Post profile error"
              :: SendResponse StatusBadRequest .nil }
      | some form =>
        let email := form.Get "email"
        let login := form.Get "login"
        let birthDate := form.Get "birthday"
        let password := form.Get "password"
        match r.File with
        | .failed _ =>
          { events := pre ++ .logError "Post profile error"
              :: SendResponse StatusInternalServerError .nil }
        | .missing =>
          if (core.CheckPassword login password).1 then
            { events := pre ++ .call (.CheckPassword login password)
                :: SendResponse StatusConflict .nil }
          else
            match core.EditProfile prevLogin login password email birthDate "" with
            | some _ =>
              { events := pre ++ [.call (.CheckPassword login password),
                  .call (.EditProfile prevLogin login password email birthDate ""),
                  .logError "Post profile error"]
                  ++ SendResponse StatusInternalServerError .nil }
            | none =>
              { events := pre ++ [.call (.CheckPassword login password),
                  .call (.EditProfile prevLogin login password email birthDate "")]
                  ++ SendResponse StatusOK .nil }
        | .file name content =>
          if (core.CheckPassword login password).1 then
            { events := pre ++ .call (.CheckPassword login password)
                :: SendResponse StatusConflict .nil }
          else
            let filename := "/avatars/" ++ name
            let path := "/home/ubuntu/frontend-project" ++ filename
            match (core.CheckPassword login password).2 with
            | some _ =>
              { events := pre ++ [.call (.CheckPassword login password),
                  .logError "Post profile error"]
                  ++ SendResponse StatusBadRequest .nil }
            | none =>
              match os.OpenFile path with
              | some _ =>
                { events := pre ++ [.call (.CheckPassword login password),
                    .openFile path, .logError "Post profile error"]
                    ++ SendResponse StatusInternalServerError .nil }
              | none =>
                match os.Copy path content with
                | some _ =>
                  { events := pre ++ [.call (.CheckPassword login password),
                      .openFile path, .copy path content, .logError "Post profile error"]
                      ++ SendResponse StatusInternalServerError .nil ++ [.close path] }
                | none =>
                  match core.EditProfile prevLogin login password email birthDate
                      filename with
                  | some _ =>
                    { events := pre ++ [.call (.CheckPassword login password),
                        .openFile path, .copy path content,
                        .call (.EditProfile prevLogin login password email birthDate
                          filename),
                        .logError "Post profile error"]
                        ++ SendResponse StatusInternalServerError .nil ++ [.close path] }
                  | none =>
                    { events := pre ++ [.call (.CheckPassword login password),
                        .openFile path, .copy path content,
                        .call (.EditProfile prevLogin login password email birthDate
                          filename)]
                        ++ SendResponse StatusOK .nil ++ [.close path] }

/-- `API.Profile`: GET reads the profile, POST edits it, every other method
is answered 401. -/
def Profile (core : Core) (os : Os) (r : Request) : Run :=
  if r.Method = MethodGet then ProfileGet core r
  else if r.Method ≠ MethodPost then { events := SendResponse StatusUnauthorized .nil }
  else ProfilePost core os r

end authorization

/-! ## Concrete collaborators and requests -/

/-- A downstream handler that is the catalog handler `FavoriteFilmsAdd` over
a core in which every favorite is new; it leaves the request as it got it. -/
def favoriteAddDownstream (r : Request) : middleware.Downstream :=
  { run := films.FavoriteFilmsAdd
      { FavoriteFilmsAdd := fun _ _ => none
        FavoriteFilmsRemove := fun _ _ => none
        FavoriteFilms := fun _ _ _ => ([], none)
        FavoriteActorsAdd := fun _ _ => none
        FavoriteActorsRemove := fun _ _ => none
        FavoriteActors := fun _ _ _ => ([], none)
        AddRating := fun _ _ _ => (false, none) } r,
    req := r }

/-- A session store that knows the session `S` of user 7 and nothing else. -/
def sessionOfUser7 : middleware.Core :=
  { GetUserId := fun sid => if sid = "S" then (7, none) else (0, some ErrNotFound) }

/-- The request `GET /api/v1/favorite/film/add?film_id=42` with cookie `session_id=S`. -/
def favoriteAddWithCookie : Request :=
  { Method := "GET", Path := "/api/v1/favorite/film/add",
    Cookies := [("session_id", "S")], Query := [("film_id", "42")] }

/-- The request `GET ...?film_id=42&actor_id=3&page=1` without a cookie: the
middleware hands it on with no user id in its context. -/
def anonymousGet : Request :=
  { Method := "GET", Path := "/api/v1/favorite/film/add",
    Query := [("film_id", "42"), ("actor_id", "3"), ("page", "1")] }

/-- The request `POST /api/v1/rating/add` with a rating body and no cookie. -/
def anonymousRating : Request :=
  { Method := "POST", Path := "/api/v1/rating/add",
    Body := some "\x7b\"filmId\": 42, \"rating\": 9\x7d" }

/-- A JSON decoder that knows the bodies of the requests below. -/
def jsonOfExamples : Json :=
  { UnmarshalSignin := fun b =>
      if b = "\x7b\"login\": \"alice\", \"password\": \"p@ss\"\x7d" then
        some { Login := "alice", Password := "p@ss" }
      else none
    UnmarshalSignup := fun b =>
      if b = "\x7b\"login\": \"bob\", \"password\": \"pw\", \"name\": \"B\", \"birthDate\": \"1990-01-01\", \"email\": \"b@x.io\"\x7d" then
        some { Login := "bob", Password := "pw", Name := "B", BirthDate := "1990-01-01",
               Email := "b@x.io" }
      else if b = "\x7b\"login\": \"alice\", \"password\": \"pw\", \"name\": \"A\", \"birthDate\": \"1990-01-01\", \"email\": \"a@x.io\"\x7d" then
        some { Login := "alice", Password := "pw", Name := "A", BirthDate := "1990-01-01",
               Email := "a@x.io" }
      else none
    UnmarshalComment := fun b =>
      if b = "\x7b\"filmId\": 42, \"rating\": 9\x7d" then some { FilmId := 42, Rating := 9 }
      else none }

/-- An identity core with user `alice` (password `p@ss`) and a live session
store, in which the only valid CSRF token is `T`: every other token, the
empty one included, is reported as not found, without error. -/
def identityCore : authorization.ICore :=
  { CheckCsrfToken := fun t => (decide (t = "T"), none)
    FindUserAccount := fun l p =>
      if l = "alice" ∧ p = "p@ss" then (some { Login := "alice" }, true, none)
      else (none, false, none)
    CreateSession := fun l => ("S", { Login := l, ExpiresAt := 86400000000000 }, none)
    FindUserByLogin := fun l => (decide (l = "alice"), none)
    CreateUserAccount := fun _ _ _ _ _ => none
    FindActiveSession := fun sid => (decide (sid = "S"), none)
    KillSession := fun _ => none
    GetUserName := fun sid => if sid = "S" then ("alice", none) else ("", some ErrNotFound)
    GetUserRole := fun l => if l = "alice" then ("regular", none) else ("", some ErrNotFound) }

/-- The identity core `identityCore` with the session store down: the calls
that write to it, `CreateSession` and `KillSession`, return an error. -/
def identityCoreStoreDown : authorization.ICore :=
  { identityCore with
    CreateSession := fun _ => ("", {}, some (.sentinel "session store unavailable"))
    KillSession := fun _ => some (.sentinel "session store unavailable") }

/-- `POST /signin` with the credentials of `alice` and no `X-CSRF-Token` header. -/
def signinWithoutToken : Request :=
  { Method := "POST", Path := "/signin",
    Body := some "\x7b\"login\": \"alice\", \"password\": \"p@ss\"\x7d" }

/-- `POST /signup` of a new login `bob` with no `X-CSRF-Token` header. -/
def signupWithoutToken : Request :=
  { Method := "POST", Path := "/signup",
    Body := some "\x7b\"login\": \"bob\", \"password\": \"pw\", \"name\": \"B\", \"birthDate\": \"1990-01-01\", \"email\": \"b@x.io\"\x7d" }

/-- `POST /signin` with the credentials of `alice` and the valid token `T`. -/
def signinWithToken : Request :=
  { signinWithoutToken with Header := [("X-Csrf-Token", "T")] }

/-- `POST /signup` of a new login `bob` with the valid token `T`. -/
def signupWithToken : Request :=
  { signupWithoutToken with Header := [("X-Csrf-Token", "T")] }

/-- A request to `/logout` or `/authcheck` with cookie `session_id=S`. -/
def withSessionCookie : Request :=
  { Method := "POST", Path := "/logout", Cookies := [("session_id", "S")] }

/-- A catalog core over a store in which user 7 has already rated and
favorited film 42 and actor 3, and has no other rows; a rating insert that
finds the row also fails with a store error. -/
def catalogCore : films.ICore :=
  { FavoriteFilmsAdd := fun u f => if u = 7 ∧ f = 42 then some ErrFoundFavorite else none
    FavoriteFilmsRemove := fun u f => if u = 7 ∧ f = 42 then none else some ErrNotFound
    FavoriteFilms := fun _ _ _ => ([], none)
    FavoriteActorsAdd := fun u a => if u = 7 ∧ a = 3 then some ErrFoundFavorite else none
    FavoriteActorsRemove := fun u a => if u = 7 ∧ a = 3 then none else some ErrNotFound
    FavoriteActors := fun _ _ _ => ([], none)
    AddRating := fun f u _ =>
      if u = 7 ∧ f = 42 then (true, some (.sentinel "duplicate key")) else (false, none) }

/-- The request `GET ...?film_id=42&actor_id=3` as the middleware hands it on
for user 7. -/
def favoriteOfUser7 : Request :=
  { Method := "GET", Path := "/api/v1/favorite/film/add",
    Query := [("film_id", "42"), ("actor_id", "3")], ctx := [(.UserIDKey, .uint64 7)] }

/-- The request `GET ...?film_id=5&actor_id=5` as the middleware hands it on
for user 7: a film and an actor that are not among the favorites. -/
def notFavoriteOfUser7 : Request :=
  { Method := "GET", Path := "/api/v1/favorite/film/remove",
    Query := [("film_id", "5"), ("actor_id", "5")], ctx := [(.UserIDKey, .uint64 7)] }

/-- The request `POST /api/v1/rating/add` with a rating of 9 for film 42, as
the middleware hands it on for user 7. -/
def ratingOfUser7 : Request :=
  { Method := "POST", Path := "/api/v1/rating/add",
    Body := some "\x7b\"filmId\": 42, \"rating\": 9\x7d", ctx := [(.UserIDKey, .uint64 7)] }

/-- `POST /signup` of the taken login `alice` with the valid token `T`. -/
def signupOfAlice : Request :=
  { Method := "POST", Path := "/signup", Header := [("X-Csrf-Token", "T")],
    Body := some "\x7b\"login\": \"alice\", \"password\": \"pw\", \"name\": \"A\", \"birthDate\": \"1990-01-01\", \"email\": \"a@x.io\"\x7d" }

/-- The identity core `identityCore` with the user table down:
`CreateUserAccount` returns a store error. -/
def identityCoreUsersDown : authorization.ICore :=
  { identityCore with
    CreateUserAccount := fun _ _ _ _ _ => some (.sentinel "user table unavailable") }

/-- The whole identity core over `identityCore`: a fresh CSRF token is `T2`,
the profile of `alice` is on record, and no password is a repeat. -/
def identityCoreWhole : authorization.Core :=
  { toICore := identityCore
    CreateCsrfToken := ("T2", none)
    GetUserProfile := fun l =>
      if l = "alice" then (some { Email := "a@x.io", Name := "A", Login := "alice" }, none)
      else (none, some ErrNotFound)
    CheckPassword := fun _ _ => (false, none)
    EditProfile := fun _ _ _ _ _ _ => none }

/-- A file system on which every open and every copy succeeds. -/
def osOfExamples : Os :=
  { OpenFile := fun _ => none
    Copy := fun _ _ => none }

/-- A request to `/api/v1/csrf` that carries the valid token `T`. -/
def csrfWithToken : Request :=
  { Method := "GET", Path := "/api/v1/csrf", Header := [("X-Csrf-Token", "T")] }

/-- `POST /api/v1/settings` with cookie `session_id=S` and a body that is not
a multipart form: `r.ParseMultipartForm` fails. -/
def profilePostBadForm : Request :=
  { Method := "POST", Path := "/api/v1/settings", Cookies := [("session_id", "S")],
    Body := some "not a form", Form := none }

/-- The request `GET /api/v1/favorite/films` without query parameters, as the
middleware hands it on for user 7. -/
def favoritesOfUser7 : Request :=
  { Method := "GET", Path := "/api/v1/favorite/films", ctx := [(.UserIDKey, .uint64 7)] }

/-- The request `GET /api/v1/favorite/films?page=0&per_page=8`, as the
middleware hands it on for user 7. -/
def favoritesPageZero : Request :=
  { Method := "GET", Path := "/api/v1/favorite/films",
    Query := [("page", "0"), ("per_page", "8")], ctx := [(.UserIDKey, .uint64 7)] }

/-- The whole catalog core over `catalogCore`, with an empty catalog. -/
def catalogCoreWhole : films.Core :=
  { toICore := catalogCore
    GetFilmsAndGenreTitle := fun _ _ _ => ([], "", none)
    GetFilmInfo := fun _ =>
      ({ Film := { Title := "", Info := "", Poster := "", ReleaseDate := "", Country := "" } },
        some ErrNotFound)
    GetActorInfo := fun _ => ({ Actor := { Id := 0, Name := "" } }, some ErrNotFound)
    FindFilm := fun _ _ _ _ _ _ _ _ => ([], some ErrNotFound)
    FindActor := fun _ _ _ _ _ => ([], some ErrNotFound)
    GetCalendar := ({}, none)
    AddFilm := fun _ _ _ => none }

/-- A wrapped handler that answers with the given status and leaves the
request with that status under `StatusKey`, as the metrics code reads it. -/
def answering (status : Nat) (r : Request) : middleware.Downstream :=
  { run := { events := SendResponse status .nil },
    req := r.WithContext (r.ctx.WithValue .StatusKey (.int status)) }

/-- The request `GET /api/v1/favorite/film/add?film_id=42` with the cookie of
a session that the store does not know. -/
def favoriteAddStaleCookie : Request :=
  { Method := "GET", Path := "/api/v1/favorite/film/add",
    Cookies := [("session_id", "gone")], Query := [("film_id", "42")] }

/-- The envelope invariant of a run: an envelope sent with a status other
than 200 has the `nil` body, and an envelope with another body has status
200. -/
def Run.EnvelopeOk (x : Run) : Prop :=
  ∀ status body, (status, body) ∈ x.sent →
    (status ≠ StatusOK → body = Body.nil) ∧ (body ≠ Body.nil → status = StatusOK)

/-- The value of a string of decimal digits, most significant digit first. -/
def decimalValue (seg : List Char) : Nat :=
  seg.foldl (fun n c => n * 10 + (c.toNat - 48)) 0

/-- A non-empty string of decimal digits with value below `2^64`. -/
def IsUint64Decimal (seg : List Char) : Prop :=
  seg ≠ [] ∧ (∀ c ∈ seg, c.isDigit = true) ∧ decimalValue seg < 2 ^ 64

/-- The parse of every piece of a list of pieces, in order: `none` as soon as
one piece does not parse. -/
def parsePieces : List (List Char) → Option (List Nat)
  | [] => some []
  | seg :: segs =>
    match ParseUint ⟨seg⟩ with
    | none => none
    | some id =>
      match parsePieces segs with
      | none => none
      | some ids => some (id :: ids)

/-- `POST /api/v1/add/film` with genres `1,2`, actors `3` and a poster. -/
def addFilmRequest : Request :=
  { Method := "POST", Path := "/api/v1/add/film",
    Form := some [("title", "Alien"), ("info", "A crew meets a creature"),
      ("date", "1979-05-25"), ("country", "US"), ("genre", "1,2"), ("actors", "3")],
    File := .file "alien.png" "poster bytes" }

/-- The request `addFilmRequest` with the genre list `1,`, a trailing comma. -/
def addFilmTrailingComma : Request :=
  { addFilmRequest with
    Form := some [("title", "Alien"), ("genre", "1,"), ("actors", "3")] }

/-- Go `time.UTC`: offset 0 at every instant. -/
def utcLocation : Location :=
  { lookup := fun _ => (0, -9223372036854775808, 9223372036854775807) }

theorem Context.Value_WithValue (ctx : Context) (key : contextKey) (val : CtxValue) :
    (ctx.WithValue key val).Value key = some val := by
  simp [Context.WithValue, Context.Value, List.find?]

theorem middleware.AuthCheck_served_noCookie (next : Request → middleware.Downstream)
    (core : middleware.Core) (r : Request) (h : r.Cookie "session_id" = none) :
    (middleware.AuthCheck next core r).served = [r] := by
  simp [middleware.AuthCheck, h, middleware.MwRun.served]

theorem middleware.AuthCheck_served_error (next : Request → middleware.Downstream)
    (core : middleware.Core) (r : Request) (s : Cookie) (e : GoError)
    (h : r.Cookie "session_id" = some s) (he : (core.GetUserId s.Value).2 = some e) :
    (middleware.AuthCheck next core r).served = [r] := by
  rcases hg : core.GetUserId s.Value with ⟨u, err⟩
  rw [hg] at he
  simp only at he
  subst he
  simp [middleware.AuthCheck, h, hg, middleware.MwRun.served]

theorem middleware.AuthCheck_served_resolved (next : Request → middleware.Downstream)
    (core : middleware.Core) (r : Request) (s : Cookie) (u : Nat)
    (h : r.Cookie "session_id" = some s) (hg : core.GetUserId s.Value = (u, none)) :
    (middleware.AuthCheck next core r).served
      = [r.WithContext (r.ctx.WithValue .UserIDKey (.uint64 u))] := by
  simp only [middleware.AuthCheck, h, hg]
  split
  · simp [middleware.MwRun.served]
  · split <;> simp [middleware.MwRun.served]

/-! ## The auth-check middleware -/

/-- C1: `AuthCheck` invokes the wrapped handler exactly once on every request.
Without a `session_id` cookie, or when `GetUserId` on the cookie value returns
an error, the handler gets the original request; when `GetUserId` returns user
id `u` without error the handler gets the request whose context binds
`UserIDKey` to exactly `u`. For a request that came in without a value under
`UserIDKey`, the handler sees one if and only if the cookie is there and
resolves. -/
theorem middleware.AuthCheck_injects_iff_resolves (next : Request → middleware.Downstream)
    (core : middleware.Core) (r : Request) :
    (∃ r1, (middleware.AuthCheck next core r).served = [r1]) ∧
    (r.Cookie "session_id" = none → (middleware.AuthCheck next core r).served = [r]) ∧
    (∀ s e, r.Cookie "session_id" = some s → (core.GetUserId s.Value).2 = some e →
      (middleware.AuthCheck next core r).served = [r]) ∧
    (∀ s u, r.Cookie "session_id" = some s → core.GetUserId s.Value = (u, none) →
      (middleware.AuthCheck next core r).served
        = [r.WithContext (r.ctx.WithValue .UserIDKey (.uint64 u))] ∧
      (r.WithContext (r.ctx.WithValue .UserIDKey (.uint64 u))).ctx.Value .UserIDKey
        = some (.uint64 u)) ∧
    (r.ctx.Value .UserIDKey = none → ∀ r1 ∈ (middleware.AuthCheck next core r).served,
      ((r1.ctx.Value .UserIDKey).isSome = true ↔
        ∃ s, r.Cookie "session_id" = some s ∧ (core.GetUserId s.Value).2 = none)) := by
  have hres : ∀ s u, r.Cookie "session_id" = some s → core.GetUserId s.Value = (u, none) →
      (r.WithContext (r.ctx.WithValue .UserIDKey (.uint64 u))).ctx.Value .UserIDKey
        = some (.uint64 u) := by
    intro s u _ _
    exact Context.Value_WithValue r.ctx .UserIDKey (.uint64 u)
  refine ⟨?_, middleware.AuthCheck_served_noCookie next core r,
    fun s e h he => middleware.AuthCheck_served_error next core r s e h he,
    fun s u h hg => ⟨middleware.AuthCheck_served_resolved next core r s u h hg, hres s u h hg⟩,
    ?_⟩
  · rcases hc : r.Cookie "session_id" with _ | s
    · exact ⟨r, middleware.AuthCheck_served_noCookie next core r hc⟩
    · rcases hg : core.GetUserId s.Value with ⟨u, _ | e⟩
      · exact ⟨_, middleware.AuthCheck_served_resolved next core r s u hc hg⟩
      · exact ⟨r, middleware.AuthCheck_served_error next core r s e hc (by rw [hg])⟩
  · intro h0 r1 hr1
    rcases hc : r.Cookie "session_id" with _ | s
    · rw [middleware.AuthCheck_served_noCookie next core r hc] at hr1
      simp only [List.mem_singleton] at hr1
      subst hr1
      simp [h0]
    · rcases hg : core.GetUserId s.Value with ⟨u, _ | e⟩
      · rw [middleware.AuthCheck_served_resolved next core r s u hc hg] at hr1
        simp only [List.mem_singleton] at hr1
        subst hr1
        rw [hres s u hc hg]
        simp [hg]
      · rw [middleware.AuthCheck_served_error next core r s e hc (by rw [hg])] at hr1
        simp only [List.mem_singleton] at hr1
        subst hr1
        simp [h0, hg]

/-- Witness of C1: the request with cookie `session_id=S`, resolved to user 7,
reaches the favorites handler once, with 7 under `UserIDKey`. -/
theorem middleware.AuthCheck_injects_iff_resolves_witness :
    favoriteAddWithCookie.Cookie "session_id" = some { Name := "session_id", Value := "S" } ∧
    sessionOfUser7.GetUserId "S" = (7, none) ∧
    (middleware.AuthCheck favoriteAddDownstream sessionOfUser7 favoriteAddWithCookie).served
      = [favoriteAddWithCookie.WithContext [(.UserIDKey, .uint64 7)]] ∧
    (favoriteAddWithCookie.WithContext [(.UserIDKey, .uint64 7)]).ctx.Value .UserIDKey
      = some (.uint64 7) :=
  ⟨by decide, by decide,
    ((middleware.AuthCheck_injects_iff_resolves favoriteAddDownstream sessionOfUser7
      favoriteAddWithCookie).2.2.2.1 { Name := "session_id", Value := "S" } 7
      (by decide) (by decide)).1,
    ((middleware.AuthCheck_injects_iff_resolves favoriteAddDownstream sessionOfUser7
      favoriteAddWithCookie).2.2.2.1 { Name := "session_id", Value := "S" } 7
      (by decide) (by decide)).2⟩

/-! ## Handlers that need the user id -/

/-- C2 (defect of the code): on a request with the allowed method whose
context has no value under `UserIDKey`, each of the seven identity-consuming
handlers ends in the panic of the unchecked type assertion `.(uint64)`: it
sends no envelope (so no 401) and makes no core call. -/
theorem films.identity_handlers_panic_without_user (core : films.ICore) (json : Json) :
    anonymousGet.ctx.Value .UserIDKey = none ∧
    anonymousRating.ctx.Value .UserIDKey = none ∧
    films.FavoriteFilmsAdd core anonymousGet = { events := [], panicked := true } ∧
    films.FavoriteFilmsRemove core anonymousGet = { events := [], panicked := true } ∧
    films.FavoriteFilms core anonymousGet = { events := [], panicked := true } ∧
    films.FavoriteActorsAdd core anonymousGet = { events := [], panicked := true } ∧
    films.FavoriteActorsRemove core anonymousGet = { events := [], panicked := true } ∧
    films.FavoriteActors core anonymousGet = { events := [], panicked := true } ∧
    films.AddRating core json anonymousRating = { events := [], panicked := true } ∧
    (films.FavoriteFilmsAdd core anonymousGet).sent = [] ∧
    (films.AddRating core json anonymousRating).sent = [] := by
  refine ⟨by decide, by decide, ?_, ?_, ?_, ?_, ?_, ?_, ?_, ?_, ?_⟩ <;> rfl

/-! ## Sign-in and sign-up guards -/

/-- C3 (defect of the code): `Signin` and `Signup` test only the error of
`CheckCsrfToken` and drop its `found` result. On a POST without an
`X-CSRF-Token` header, where the check reports `false` without error, neither
answers 412 nor sets the response header: `Signin` looks the account up,
creates a session and answers 200 with the cookie, `Signup` creates the
account and answers 200. -/
theorem authorization.csrf_guard_ignores_found :
    signinWithoutToken.Header.Get "x-csrf-token" = "" ∧
    identityCore.CheckCsrfToken "" = (false, none) ∧
    (authorization.Signin identityCore jsonOfExamples signinWithoutToken).sent
      = [(StatusOK, .nil)] ∧
    (authorization.Signin identityCore jsonOfExamples signinWithoutToken).headers = [] ∧
    (authorization.Signin identityCore jsonOfExamples signinWithoutToken).calls
      = [.CheckCsrfToken "", .FindUserAccount "alice" "p@ss", .CreateSession "alice"] ∧
    (authorization.Signin identityCore jsonOfExamples signinWithoutToken).cookies
      = [{ Name := "session_id", Value := "S", Path := "/", Expires := 86400000000000,
           HttpOnly := true }] ∧
    (authorization.Signup identityCore jsonOfExamples signupWithoutToken).sent
      = [(StatusOK, .nil)] ∧
    (authorization.Signup identityCore jsonOfExamples signupWithoutToken).headers = [] ∧
    (authorization.Signup identityCore jsonOfExamples signupWithoutToken).calls
      = [.CheckCsrfToken "", .FindUserByLogin "bob",
         .CreateUserAccount "bob" "pw" "B" "1990-01-01" "b@x.io"] := by
  refine ⟨by decide, by decide, ?_, ?_, ?_, ?_, ?_, ?_, ?_⟩ <;> rfl

/-- C4 (defect of the code): `Signin` drops the error of `CreateSession`. With
a valid token and valid credentials and a `CreateSession` that fails, the
response is 200 and a `session_id` cookie with the empty id is set. In the
same way `LogoutSession` answers 200 when `KillSession` fails. -/
theorem authorization.session_store_errors_dropped :
    identityCoreStoreDown.CreateSession "alice"
      = ("", {}, some (.sentinel "session store unavailable")) ∧
    (authorization.Signin identityCoreStoreDown jsonOfExamples signinWithToken).sent
      = [(StatusOK, .nil)] ∧
    (authorization.Signin identityCoreStoreDown jsonOfExamples signinWithToken).cookies
      = [{ Name := "session_id", Value := "", Path := "/", Expires := zeroTime,
           HttpOnly := true }] ∧
    identityCoreStoreDown.KillSession "S" = some (.sentinel "session store unavailable") ∧
    (authorization.LogoutSession identityCoreStoreDown utcLocation 0 withSessionCookie).sent
      = [(StatusOK, .nil)] := by
  refine ⟨by rfl, ?_, ?_, by rfl, ?_⟩ <;> rfl

/-! ## Ratings and favorites -/

/-- C5 (defect of the code): `AddRating` sets 500 on an error of the core and
goes on to the `found` test. When the core returns an error together with
`found = true` the envelope sent has status 406, not 500. -/
theorem films.AddRating_error_with_found_sends_406 :
    catalogCore.AddRating 42 7 9 = (true, some (.sentinel "duplicate key")) ∧
    films.AddRating catalogCore jsonOfExamples ratingOfUser7
      = { events := [.call (.AddRating 42 7 9), .logError "add rating error",
                     .send StatusNotAcceptable .nil] } ∧
    (films.AddRating catalogCore jsonOfExamples ratingOfUser7).sent
      = [(StatusNotAcceptable, .nil)] := by
  refine ⟨by rfl, ?_, ?_⟩ <;> rfl

/-- C6: favorite add. A request whose method is not GET gets 405 and an
unparseable id gets 400, both without a core call. A GET with user id `u`
under `UserIDKey` and an id that parses to `n` calls the core add once, with
exactly `(u, n)`, and answers 200 when it returns no error, 406 when the
error wraps `ErrFoundFavorite`, 500 on every other error. The same holds for
`FavoriteFilmsAdd` with `film_id` and `FavoriteActorsAdd` with `actor_id`. -/
theorem films.FavoriteAdd_status (core : films.ICore) (r : Request) :
    (r.Method ≠ MethodGet →
      (films.FavoriteFilmsAdd core r).sent = [(StatusMethodNotAllowed, .nil)] ∧
      (films.FavoriteFilmsAdd core r).calls = [] ∧
      (films.FavoriteActorsAdd core r).sent = [(StatusMethodNotAllowed, .nil)] ∧
      (films.FavoriteActorsAdd core r).calls = []) ∧
    (∀ u, r.Method = MethodGet → r.ctx.Value .UserIDKey = some (.uint64 u) →
      (ParseUint (r.Query.Get "film_id") = none →
        (films.FavoriteFilmsAdd core r).sent = [(StatusBadRequest, .nil)] ∧
        (films.FavoriteFilmsAdd core r).calls = []) ∧
      (ParseUint (r.Query.Get "actor_id") = none →
        (films.FavoriteActorsAdd core r).sent = [(StatusBadRequest, .nil)] ∧
        (films.FavoriteActorsAdd core r).calls = []) ∧
      (∀ n, ParseUint (r.Query.Get "film_id") = some n →
        (films.FavoriteFilmsAdd core r).calls = [.FavoriteFilmsAdd u n] ∧
        (films.FavoriteFilmsAdd core r).panicked = false ∧
        (core.FavoriteFilmsAdd u n = none →
          (films.FavoriteFilmsAdd core r).sent = [(StatusOK, .nil)]) ∧
        (∀ e, core.FavoriteFilmsAdd u n = some e → errorsIs e ErrFoundFavorite = true →
          (films.FavoriteFilmsAdd core r).sent = [(StatusNotAcceptable, .nil)]) ∧
        (∀ e, core.FavoriteFilmsAdd u n = some e → errorsIs e ErrFoundFavorite = false →
          (films.FavoriteFilmsAdd core r).sent = [(StatusInternalServerError, .nil)])) ∧
      (∀ n, ParseUint (r.Query.Get "actor_id") = some n →
        (films.FavoriteActorsAdd core r).calls = [.FavoriteActorsAdd u n] ∧
        (films.FavoriteActorsAdd core r).panicked = false ∧
        (core.FavoriteActorsAdd u n = none →
          (films.FavoriteActorsAdd core r).sent = [(StatusOK, .nil)]) ∧
        (∀ e, core.FavoriteActorsAdd u n = some e → errorsIs e ErrFoundFavorite = true →
          (films.FavoriteActorsAdd core r).sent = [(StatusNotAcceptable, .nil)]) ∧
        (∀ e, core.FavoriteActorsAdd u n = some e → errorsIs e ErrFoundFavorite = false →
          (films.FavoriteActorsAdd core r).sent = [(StatusInternalServerError, .nil)]))) := by
  refine ⟨fun hm => ?_, fun u hm hu => ⟨fun hp => ?_, fun hp => ?_, fun n hp => ?_,
    fun n hp => ?_⟩⟩
  · simp [films.FavoriteFilmsAdd, films.FavoriteActorsAdd, hm, Run.sent, Run.calls,
      SendResponse]
  · simp [films.FavoriteFilmsAdd, hm, films.userIdOf, hu, hp, Run.sent, Run.calls,
      SendResponse]
  · simp [films.FavoriteActorsAdd, hm, films.userIdOf, hu, hp, Run.sent, Run.calls,
      SendResponse]
  · rcases hc : core.FavoriteFilmsAdd u n with _ | e
    · simp [films.FavoriteFilmsAdd, hm, films.userIdOf, hu, hp, hc, Run.sent, Run.calls,
        SendResponse]
    · cases he : errorsIs e ErrFoundFavorite <;>
        simp [films.FavoriteFilmsAdd, hm, films.userIdOf, hu, hp, hc, he, Run.sent,
          Run.calls, SendResponse]
  · rcases hc : core.FavoriteActorsAdd u n with _ | e
    · simp [films.FavoriteActorsAdd, hm, films.userIdOf, hu, hp, hc, Run.sent, Run.calls,
        SendResponse]
    · cases he : errorsIs e ErrFoundFavorite <;>
        simp [films.FavoriteActorsAdd, hm, films.userIdOf, hu, hp, hc, he, Run.sent,
          Run.calls, SendResponse]

/-- Witness of C6: user 7 adds film 42, which is already a favorite: one core
call with `(7, 42)` and status 406. -/
theorem films.FavoriteAdd_status_witness :
    favoriteOfUser7.Method = MethodGet ∧
    favoriteOfUser7.ctx.Value .UserIDKey = some (.uint64 7) ∧
    ParseUint (favoriteOfUser7.Query.Get "film_id") = some 42 ∧
    catalogCore.FavoriteFilmsAdd 7 42 = some ErrFoundFavorite ∧
    errorsIs ErrFoundFavorite ErrFoundFavorite = true ∧
    (films.FavoriteFilmsAdd catalogCore favoriteOfUser7).calls = [.FavoriteFilmsAdd 7 42] ∧
    (films.FavoriteFilmsAdd catalogCore favoriteOfUser7).sent
      = [(StatusNotAcceptable, .nil)] :=
  ⟨by decide, by decide, by decide, by decide, by decide,
    (((films.FavoriteAdd_status catalogCore favoriteOfUser7).2 7 (by decide)
      (by decide)).2.2.1 42 (by decide)).1,
    (((films.FavoriteAdd_status catalogCore favoriteOfUser7).2 7 (by decide)
      (by decide)).2.2.1 42 (by decide)).2.2.2.1 ErrFoundFavorite (by decide) (by decide)⟩

/-- C7, counterexample: user 7 removes film 5 and actor 5, which are not
among the favorites; the core reports `ErrNotFound` and both remove handlers
answer 500, not 200. -/
theorem films.FavoriteRemove_notFound_sends_500 :
    catalogCore.FavoriteFilmsRemove 7 5 = some ErrNotFound ∧
    catalogCore.FavoriteActorsRemove 7 5 = some ErrNotFound ∧
    (films.FavoriteFilmsRemove catalogCore notFavoriteOfUser7).sent
      = [(StatusInternalServerError, .nil)] ∧
    (films.FavoriteActorsRemove catalogCore notFavoriteOfUser7).sent
      = [(StatusInternalServerError, .nil)] ∧
    (films.FavoriteFilmsRemove catalogCore notFavoriteOfUser7).sent ≠ [(StatusOK, .nil)] ∧
    (films.FavoriteActorsRemove catalogCore notFavoriteOfUser7).sent ≠ [(StatusOK, .nil)] := by
  refine ⟨by decide, by decide, by rfl, by rfl, by decide, by decide⟩

/-- C7, amended: favorite remove. A GET with user id `u` under `UserIDKey`
and an id that parses to `n` calls the core remove once, with exactly
`(u, n)`, and answers 200 when it returns no error and 500 on every error,
`ErrNotFound` included: the handlers swallow no error. The same holds for
`FavoriteFilmsRemove` with `film_id` and `FavoriteActorsRemove` with
`actor_id`. -/
theorem films.FavoriteRemove_status (core : films.ICore) (r : Request) (u : Nat)
    (hm : r.Method = MethodGet) (hu : r.ctx.Value .UserIDKey = some (.uint64 u)) :
    (∀ n, ParseUint (r.Query.Get "film_id") = some n →
      (films.FavoriteFilmsRemove core r).calls = [.FavoriteFilmsRemove u n] ∧
      (films.FavoriteFilmsRemove core r).panicked = false ∧
      (core.FavoriteFilmsRemove u n = none →
        (films.FavoriteFilmsRemove core r).sent = [(StatusOK, .nil)]) ∧
      (∀ e, core.FavoriteFilmsRemove u n = some e →
        (films.FavoriteFilmsRemove core r).sent = [(StatusInternalServerError, .nil)])) ∧
    (∀ n, ParseUint (r.Query.Get "actor_id") = some n →
      (films.FavoriteActorsRemove core r).calls = [.FavoriteActorsRemove u n] ∧
      (films.FavoriteActorsRemove core r).panicked = false ∧
      (core.FavoriteActorsRemove u n = none →
        (films.FavoriteActorsRemove core r).sent = [(StatusOK, .nil)]) ∧
      (∀ e, core.FavoriteActorsRemove u n = some e →
        (films.FavoriteActorsRemove core r).sent = [(StatusInternalServerError, .nil)])) := by
  refine ⟨fun n hp => ?_, fun n hp => ?_⟩
  · rcases hc : core.FavoriteFilmsRemove u n with _ | e <;>
      simp [films.FavoriteFilmsRemove, hm, films.userIdOf, hu, hp, hc, Run.sent, Run.calls,
        SendResponse]
  · rcases hc : core.FavoriteActorsRemove u n with _ | e <;>
      simp [films.FavoriteActorsRemove, hm, films.userIdOf, hu, hp, hc, Run.sent, Run.calls,
        SendResponse]

/-- Witness of C7, amended: user 7 removes film 42, a favorite: one core call
with `(7, 42)`, no error, status 200. -/
theorem films.FavoriteRemove_status_witness :
    favoriteOfUser7.Method = MethodGet ∧
    favoriteOfUser7.ctx.Value .UserIDKey = some (.uint64 7) ∧
    ParseUint (favoriteOfUser7.Query.Get "film_id") = some 42 ∧
    catalogCore.FavoriteFilmsRemove 7 42 = none ∧
    (films.FavoriteFilmsRemove catalogCore favoriteOfUser7).calls
      = [.FavoriteFilmsRemove 7 42] ∧
    (films.FavoriteFilmsRemove catalogCore favoriteOfUser7).sent = [(StatusOK, .nil)] :=
  ⟨by decide, by decide, by decide, by decide,
    ((films.FavoriteRemove_status catalogCore favoriteOfUser7 7 (by decide)
      (by decide)).1 42 (by decide)).1,
    ((films.FavoriteRemove_status catalogCore favoriteOfUser7 7 (by decide)
      (by decide)).1 42 (by decide)).2.2.1 (by decide)⟩

/-! ## Session probe, logout and sign-up -/

/-- C8: `AuthAccept` answers 401 when the request has no `session_id` cookie
or `FindActiveSession` reports the session as not active; 500 when the session
is active and `GetUserName`, or then `GetUserRole`, returns an error; and
otherwise 200 with body exactly `(Login: l, Role: ro)`, where `l` is the
result of `GetUserName` on the cookie value and `ro` that of `GetUserRole l`. -/
theorem authorization.AuthAccept_status (core : authorization.ICore) (r : Request) :
    (r.Cookie "session_id" = none →
      (authorization.AuthAccept core r).sent = [(StatusUnauthorized, .nil)]) ∧
    (∀ s, r.Cookie "session_id" = some s → (core.FindActiveSession s.Value).1 = false →
      (authorization.AuthAccept core r).sent = [(StatusUnauthorized, .nil)]) ∧
    (∀ s l e, r.Cookie "session_id" = some s → (core.FindActiveSession s.Value).1 = true →
      core.GetUserName s.Value = (l, some e) →
      (authorization.AuthAccept core r).sent = [(StatusInternalServerError, .nil)]) ∧
    (∀ s l ro e, r.Cookie "session_id" = some s →
      (core.FindActiveSession s.Value).1 = true →
      core.GetUserName s.Value = (l, none) → core.GetUserRole l = (ro, some e) →
      (authorization.AuthAccept core r).sent = [(StatusInternalServerError, .nil)]) ∧
    (∀ s l ro, r.Cookie "session_id" = some s → (core.FindActiveSession s.Value).1 = true →
      core.GetUserName s.Value = (l, none) → core.GetUserRole l = (ro, none) →
      (authorization.AuthAccept core r).sent = [(StatusOK, .authCheck l ro)] ∧
      (authorization.AuthAccept core r).panicked = false) := by
  refine ⟨fun hc => ?_, fun s hc hf => ?_, fun s l e hc hf hn => ?_,
    fun s l ro e hc hf hn hr => ?_, fun s l ro hc hf hn hr => ?_⟩
  · simp [authorization.AuthAccept, hc, Run.sent, SendResponse]
  · simp [authorization.AuthAccept, hc, hf, Run.sent, SendResponse]
  · simp [authorization.AuthAccept, hc, hf, hn, Run.sent, SendResponse]
  · simp [authorization.AuthAccept, hc, hf, hn, hr, Run.sent, SendResponse]
  · simp [authorization.AuthAccept, hc, hf, hn, hr, Run.sent, SendResponse]

/-- Witness of C8: the probe with cookie `session_id=S` of `alice` answers 200
with body `(Login: alice, Role: regular)`. -/
theorem authorization.AuthAccept_status_witness :
    withSessionCookie.Cookie "session_id" = some { Name := "session_id", Value := "S" } ∧
    (identityCore.FindActiveSession "S").1 = true ∧
    identityCore.GetUserName "S" = ("alice", none) ∧
    identityCore.GetUserRole "alice" = ("regular", none) ∧
    (authorization.AuthAccept identityCore withSessionCookie).sent
      = [(StatusOK, .authCheck "alice" "regular")] :=
  ⟨by decide, by decide, by decide, by decide,
    ((authorization.AuthAccept_status identityCore withSessionCookie).2.2.2.2
      { Name := "session_id", Value := "S" } "alice" "regular"
      (by decide) (by decide) (by decide) (by decide)).1⟩

/-- C10: `Signup` on a POST for which `CheckCsrfToken` returns no error and
whose body decodes to a sign-up request. When `FindUserByLogin` on the login
reports `found = true` without error, the status is 409 and
`CreateUserAccount` is not called. When it reports `found = false` without
error, `CreateUserAccount` is called exactly once, with the login, password,
name, birth date and email of the request in that order. And on every request
whatsoever, a call of `CreateUserAccount` is made only in that last case. -/
theorem authorization.Signup_taken_login (core : authorization.ICore) (json : Json)
    (r : Request) :
    (∀ body request, r.Method = MethodPost →
      (core.CheckCsrfToken (r.Header.Get "x-csrf-token")).2 = none →
      r.Body = some body → json.UnmarshalSignup body = some request →
      (core.FindUserByLogin request.Login = (true, none) →
        (authorization.Signup core json r).sent = [(StatusConflict, .nil)] ∧
        (authorization.Signup core json r).calls
          = [.CheckCsrfToken (r.Header.Get "x-csrf-token"),
             .FindUserByLogin request.Login]) ∧
      (core.FindUserByLogin request.Login = (false, none) →
        (authorization.Signup core json r).calls
          = [.CheckCsrfToken (r.Header.Get "x-csrf-token"),
             .FindUserByLogin request.Login,
             .CreateUserAccount request.Login request.Password request.Name
               request.BirthDate request.Email])) ∧
    (∀ l p n b e, Call.CreateUserAccount l p n b e ∈ (authorization.Signup core json r).calls →
      ∃ body request, r.Method = MethodPost ∧
        (core.CheckCsrfToken (r.Header.Get "x-csrf-token")).2 = none ∧
        r.Body = some body ∧ json.UnmarshalSignup body = some request ∧
        core.FindUserByLogin request.Login = (false, none) ∧
        Call.CreateUserAccount l p n b e
          = .CreateUserAccount request.Login request.Password request.Name
              request.BirthDate request.Email ∧
        (authorization.Signup core json r).calls.count (.CreateUserAccount l p n b e) = 1) := by
  constructor
  · intro body request hm hcsrf hb hj
    rcases hck : core.CheckCsrfToken (r.Header.Get "x-csrf-token") with ⟨fc, ec⟩
    rw [hck] at hcsrf
    simp only at hcsrf
    subst hcsrf
    constructor
    · intro hf
      simp [authorization.Signup, hm, hck, hb, hj, hf, Run.sent, Run.calls, SendResponse]
    · intro hf
      rcases hcr : core.CreateUserAccount request.Login request.Password request.Name
        request.BirthDate request.Email with _ | err
      · simp [authorization.Signup, hm, hck, hb, hj, hf, hcr, Run.calls, SendResponse]
      · by_cases he : err = InvalideEmail <;>
          simp [authorization.Signup, hm, hck, hb, hj, hf, hcr, he, Run.calls, SendResponse]
  · intro l p n b e hmem
    by_cases hm : r.Method = MethodPost
    swap
    · simp [authorization.Signup, hm, Run.calls, SendResponse] at hmem
    rcases hck : core.CheckCsrfToken (r.Header.Get "x-csrf-token") with ⟨fc, _ | ec⟩
    swap
    · simp [authorization.Signup, hm, hck, Run.calls, SendResponse] at hmem
    rcases hb : r.Body with _ | body
    · simp [authorization.Signup, hm, hck, hb, Run.calls, SendResponse] at hmem
    rcases hj : json.UnmarshalSignup body with _ | request
    · simp [authorization.Signup, hm, hck, hb, hj, Run.calls, SendResponse] at hmem
    rcases hf : core.FindUserByLogin request.Login with ⟨found, _ | ef⟩
    swap
    · simp [authorization.Signup, hm, hck, hb, hj, hf, Run.calls, SendResponse] at hmem
    cases found
    swap
    · simp [authorization.Signup, hm, hck, hb, hj, hf, Run.calls, SendResponse] at hmem
    refine ⟨body, request, hm, rfl, rfl, hj, hf, ?_⟩
    rcases hcr : core.CreateUserAccount request.Login request.Password request.Name
      request.BirthDate request.Email with _ | err
    · simp [authorization.Signup, hm, hck, hb, hj, hf, hcr, Run.calls, SendResponse] at hmem ⊢
      simp [hmem]
    · by_cases he : err = InvalideEmail
      · simp [authorization.Signup, hm, hck, hb, hj, hf, hcr, he, Run.calls,
          SendResponse] at hmem ⊢
        simp [hmem]
      · simp [authorization.Signup, hm, hck, hb, hj, hf, hcr, he, Run.calls,
          SendResponse] at hmem ⊢
        simp [hmem]

/-- Witness of C10: signing up the taken login `alice` with the valid token
`T` answers 409 and stops after `FindUserByLogin`. -/
theorem authorization.Signup_taken_login_witness :
    signupOfAlice.Method = MethodPost ∧
    (identityCore.CheckCsrfToken (signupOfAlice.Header.Get "x-csrf-token")).2 = none ∧
    jsonOfExamples.UnmarshalSignup
        "\x7b\"login\": \"alice\", \"password\": \"pw\", \"name\": \"A\", \"birthDate\": \"1990-01-01\", \"email\": \"a@x.io\"\x7d" = some
      { Login := "alice", Password := "pw", Name := "A", BirthDate := "1990-01-01",
        Email := "a@x.io" } ∧
    identityCore.FindUserByLogin "alice" = (true, none) ∧
    (authorization.Signup identityCore jsonOfExamples signupOfAlice).sent
      = [(StatusConflict, .nil)] ∧
    (authorization.Signup identityCore jsonOfExamples signupOfAlice).calls
      = [.CheckCsrfToken "T", .FindUserByLogin "alice"] :=
  ⟨by decide, by decide, by decide, by decide,
    (((authorization.Signup_taken_login identityCore jsonOfExamples signupOfAlice).1
      "\x7b\"login\": \"alice\", \"password\": \"pw\", \"name\": \"A\", \"birthDate\": \"1990-01-01\", \"email\": \"a@x.io\"\x7d"
      { Login := "alice", Password := "pw", Name := "A", BirthDate := "1990-01-01",
        Email := "a@x.io" } (by decide) (by decide) (by decide) (by decide)).1
      (by decide)).1,
    (((authorization.Signup_taken_login identityCore jsonOfExamples signupOfAlice).1
      "\x7b\"login\": \"alice\", \"password\": \"pw\", \"name\": \"A\", \"birthDate\": \"1990-01-01\", \"email\": \"a@x.io\"\x7d"
      { Login := "alice", Password := "pw", Name := "A", BirthDate := "1990-01-01",
        Email := "a@x.io" } (by decide) (by decide) (by decide) (by decide)).1
      (by decide)).2⟩

/-! ## Sign-up errors and CSRF issuance -/

/-- C11 (defect of the code): both tests on the error of `CreateUserAccount`
in `Signup` set the status to 400. A store error that is not `InvalideEmail`
is answered 400, not 500. -/
theorem authorization.Signup_store_error_sends_400 :
    identityCoreUsersDown.FindUserByLogin "bob" = (false, none) ∧
    identityCoreUsersDown.CreateUserAccount "bob" "pw" "B" "1990-01-01" "b@x.io"
      = some (.sentinel "user table unavailable") ∧
    GoError.sentinel "user table unavailable" ≠ InvalideEmail ∧
    authorization.Signup identityCoreUsersDown jsonOfExamples signupWithToken
      = { events := [.call (.CheckCsrfToken "T"), .call (.FindUserByLogin "bob"),
                     .call (.CreateUserAccount "bob" "pw" "B" "1990-01-01" "b@x.io"),
                     .logError "failed to create user account",
                     .send StatusBadRequest .nil] } ∧
    (authorization.Signup identityCoreUsersDown jsonOfExamples signupWithToken).sent
      = [(StatusBadRequest, .nil)] := by
  refine ⟨by decide, by rfl, by decide, ?_, ?_⟩ <;> rfl

/-- C12: `GetCsrfToken`, with `t` the `X-CSRF-Token` header of the request.
When `CheckCsrfToken t` returns an error: status 500 and response header
`null`. When it returns `found = true` without error and `t` is not empty:
status 200, response header `t`, and `CreateCsrfToken` is not called. When it
returns no error and `t` is empty or not found: `CreateCsrfToken` is called
once; on success the status is 200 and the response header is the new token,
on error the status is 500 and the response header is `null`. -/
theorem authorization.GetCsrfToken_status (core : authorization.Core) (r : Request) :
    (∀ found e, core.CheckCsrfToken (r.Header.Get "x-csrf-token") = (found, some e) →
      (authorization.GetCsrfToken core r).sent = [(StatusInternalServerError, .nil)] ∧
      (authorization.GetCsrfToken core r).headers = [("X-CSRF-Token", "null")] ∧
      (authorization.GetCsrfToken core r).calls
        = [.CheckCsrfToken (r.Header.Get "x-csrf-token")]) ∧
    (core.CheckCsrfToken (r.Header.Get "x-csrf-token") = (true, none) →
      r.Header.Get "x-csrf-token" ≠ "" →
      (authorization.GetCsrfToken core r).sent = [(StatusOK, .nil)] ∧
      (authorization.GetCsrfToken core r).headers
        = [("X-CSRF-Token", r.Header.Get "x-csrf-token")] ∧
      (authorization.GetCsrfToken core r).calls
        = [.CheckCsrfToken (r.Header.Get "x-csrf-token")]) ∧
    (∀ found, core.CheckCsrfToken (r.Header.Get "x-csrf-token") = (found, none) →
      (r.Header.Get "x-csrf-token" = "" ∨ found = false) →
      (authorization.GetCsrfToken core r).calls
        = [.CheckCsrfToken (r.Header.Get "x-csrf-token"), .CreateCsrfToken] ∧
      (∀ token, core.CreateCsrfToken = (token, none) →
        (authorization.GetCsrfToken core r).sent = [(StatusOK, .nil)] ∧
        (authorization.GetCsrfToken core r).headers = [("X-CSRF-Token", token)]) ∧
      (∀ token e, core.CreateCsrfToken = (token, some e) →
        (authorization.GetCsrfToken core r).sent = [(StatusInternalServerError, .nil)] ∧
        (authorization.GetCsrfToken core r).headers = [("X-CSRF-Token", "null")])) := by
  refine ⟨fun found e hc => ?_, fun hc ht => ?_, fun found hc hne => ?_⟩
  · simp [authorization.GetCsrfToken, hc, Run.sent, Run.headers, Run.calls, SendResponse]
  · simp [authorization.GetCsrfToken, hc, ht, Run.sent, Run.headers, Run.calls, SendResponse]
  · have hcond : ¬ (r.Header.Get "x-csrf-token" ≠ "" ∧ found = true) := by
      rcases hne with h | h
      · exact fun hh => hh.1 h
      · exact fun hh => by simp [h] at hh
    rcases hcr : core.CreateCsrfToken with ⟨token, _ | e⟩
    · simp only [authorization.GetCsrfToken, hc, hcr, if_neg hcond]
      simp [Run.sent, Run.headers, Run.calls, SendResponse]
    · simp only [authorization.GetCsrfToken, hc, hcr, if_neg hcond]
      simp [Run.sent, Run.headers, Run.calls, SendResponse]

/-- Witness of C12: a request that carries the valid token `T` gets `T` back
with status 200, and no token is created. -/
theorem authorization.GetCsrfToken_status_witness :
    csrfWithToken.Header.Get "x-csrf-token" = "T" ∧
    identityCoreWhole.CheckCsrfToken "T" = (true, none) ∧
    (authorization.GetCsrfToken identityCoreWhole csrfWithToken).sent = [(StatusOK, .nil)] ∧
    (authorization.GetCsrfToken identityCoreWhole csrfWithToken).headers
      = [("X-CSRF-Token", csrfWithToken.Header.Get "x-csrf-token")] ∧
    (authorization.GetCsrfToken identityCoreWhole csrfWithToken).calls
      = [.CheckCsrfToken (csrfWithToken.Header.Get "x-csrf-token")] :=
  ⟨by decide, by decide,
    ((authorization.GetCsrfToken_status identityCoreWhole csrfWithToken).2.1
      (by decide) (by decide)).1,
    ((authorization.GetCsrfToken_status identityCoreWhole csrfWithToken).2.1
      (by decide) (by decide)).2.1,
    ((authorization.GetCsrfToken_status identityCoreWhole csrfWithToken).2.1
      (by decide) (by decide)).2.2⟩

/-! ## Pagination -/

theorem ParseUintDigits_lt (cs : List Char) (n0 n : Nat) (h0 : n0 < 2 ^ 64)
    (h : ParseUintDigits cs n0 = some n) : n < 2 ^ 64 := by
  induction cs generalizing n0 with
  | nil =>
    simp only [ParseUintDigits, Option.some.injEq] at h
    omega
  | cons c cs ih =>
    simp only [ParseUintDigits] at h
    split at h
    · split at h
      · rename_i hlt
        exact ih _ hlt h
      · exact absurd h (by simp)
    · exact absurd h (by simp)

theorem ParseUint_lt (s : String) (n : Nat) (h : ParseUint s = some n) : n < 2 ^ 64 := by
  unfold ParseUint at h
  split at h
  · exact absurd h (by simp)
  · exact ParseUintDigits_lt s.data 0 n (by norm_num) h

theorem ParseUint_getD_lt (s : String) (d : Nat) (hd : d < 2 ^ 64) :
    (ParseUint s).getD d < 2 ^ 64 := by
  rcases h : ParseUint s with _ | n
  · simpa using hd
  · simpa using ParseUint_lt s n h

theorem films.pageStart_eq_mod (page pageSize : Nat) :
    films.pageStart page pageSize = ((page + 2 ^ 64 - 1) * pageSize) % 2 ^ 64 := by
  unfold films.pageStart
  exact Nat.mod_mul_mod

theorem films.pageStart_eq_mul (page pageSize : Nat) (h1 : 1 ≤ page) (hp : page < 2 ^ 64)
    (hlt : (page - 1) * pageSize < 2 ^ 64) :
    films.pageStart page pageSize = (page - 1) * pageSize := by
  unfold films.pageStart
  have h : (page + 2 ^ 64 - 1) % 2 ^ 64 = page - 1 := by omega
  rw [h]
  exact Nat.mod_eq_of_lt hlt

theorem films.pageStart_zero (pageSize : Nat) (hs : pageSize < 2 ^ 64) :
    films.pageStart 0 pageSize = (2 ^ 64 - pageSize) % 2 ^ 64 := by
  unfold films.pageStart
  have h : (0 + 2 ^ 64 - 1) % 2 ^ 64 = 2 ^ 64 - 1 := by norm_num
  rw [h]
  rcases Nat.eq_zero_or_pos pageSize with h0 | hpos
  · subst h0
    norm_num
  · have e : (2 ^ 64 - 1) * pageSize = (2 ^ 64 - pageSize) + (pageSize - 1) * 2 ^ 64 := by
      have h2 : (2 ^ 64 - 1) * pageSize + pageSize = 2 ^ 64 * pageSize := by
        rw [Nat.sub_mul, Nat.one_mul]
        exact Nat.sub_add_cancel (Nat.le_mul_of_pos_left _ (by norm_num))
      have h3 : (pageSize - 1) * 2 ^ 64 + 2 ^ 64 = 2 ^ 64 * pageSize := by
        rw [Nat.sub_mul, Nat.one_mul, Nat.mul_comm pageSize]
        exact Nat.sub_add_cancel (Nat.le_mul_of_pos_right _ hpos)
      omega
    rw [e, Nat.add_mul_mod_self_right]

/-- C13: pagination of `FavoriteFilms` and `FavoriteActors` on a GET with user
id `u` under `UserIDKey`. With `page` the value of the `page` parameter, or 1
when it is missing or does not parse, and `perPage` the value of `per_page`,
or 8 when it is missing or does not parse, the core listing is called once,
with `(u, start, perPage)`, where `start = (page - 1) * perPage` whenever
`page ≥ 1` and that product is below `2^64`. A missing parameter reads as
1 and 8, and without any query parameter the call is `(u, 0, 8)`. -/
theorem films.Favorites_pagination (core : films.ICore) (r : Request) (u page perPage : Nat)
    (hm : r.Method = MethodGet) (hu : r.ctx.Value .UserIDKey = some (.uint64 u))
    (hpage : page = (ParseUint (r.Query.Get "page")).getD 1)
    (hper : perPage = (ParseUint (r.Query.Get "per_page")).getD 8) :
    (∃ start, (films.FavoriteFilms core r).calls = [.FavoriteFilms u start perPage] ∧
      (films.FavoriteActors core r).calls = [.FavoriteActors u start perPage] ∧
      (1 ≤ page → (page - 1) * perPage < 2 ^ 64 → start = (page - 1) * perPage)) ∧
    (ParseUint "" = none ∧ Values.Get [] "page" = "" ∧ Values.Get [] "per_page" = "") ∧
    (r.Query = [] →
      (films.FavoriteFilms core r).calls = [.FavoriteFilms u 0 8] ∧
      (films.FavoriteActors core r).calls = [.FavoriteActors u 0 8]) := by
  have hf : (films.FavoriteFilms core r).calls
      = [.FavoriteFilms u (films.pageStart page perPage) perPage] := by
    rcases hc : core.FavoriteFilms u (films.pageStart page perPage) perPage with ⟨fs, _ | e⟩ <;>
      simp [films.FavoriteFilms, hm, films.userIdOf, hu, ← hpage, ← hper, hc, Run.calls,
        SendResponse]
  have ha : (films.FavoriteActors core r).calls
      = [.FavoriteActors u (films.pageStart page perPage) perPage] := by
    rcases hc : core.FavoriteActors u (films.pageStart page perPage) perPage with ⟨fs, _ | e⟩ <;>
      simp [films.FavoriteActors, hm, films.userIdOf, hu, ← hpage, ← hper, hc, Run.calls,
        SendResponse]
  have hplt : page < 2 ^ 64 := by
    rw [hpage]
    exact ParseUint_getD_lt _ 1 (by norm_num)
  refine ⟨⟨films.pageStart page perPage, hf, ha, fun h1 hlt =>
    films.pageStart_eq_mul page perPage h1 hplt hlt⟩, ⟨by decide, by decide, by decide⟩, ?_⟩
  intro hq
  have hp1 : page = 1 := by
    rw [hpage, hq]
    decide
  have hp8 : perPage = 8 := by
    rw [hper, hq]
    decide
  have h0 : films.pageStart 1 8 = 0 := by decide
  rw [hf, ha, hp1, hp8, h0]
  exact ⟨rfl, rfl⟩

/-- Witness of C13: the listing of user 7 without query parameters is the
call `(7, 0, 8)`. -/
theorem films.Favorites_pagination_witness :
    favoritesOfUser7.Method = MethodGet ∧
    favoritesOfUser7.ctx.Value .UserIDKey = some (.uint64 7) ∧
    favoritesOfUser7.Query = [] ∧
    (films.FavoriteFilms catalogCore favoritesOfUser7).calls = [.FavoriteFilms 7 0 8] ∧
    (films.FavoriteActors catalogCore favoritesOfUser7).calls = [.FavoriteActors 7 0 8] :=
  ⟨by decide, by decide, by decide,
    ((films.Favorites_pagination catalogCore favoritesOfUser7 7 1 8 (by decide) (by decide)
      (by decide) (by decide)).2.2 (by decide)).1,
    ((films.Favorites_pagination catalogCore favoritesOfUser7 7 1 8 (by decide) (by decide)
      (by decide) (by decide)).2.2 (by decide)).2⟩

/-- C18: the start of a page is computed in unsigned 64-bit arithmetic. In
`Films` (parameters `page`, `page_size`), `FavoriteFilms` and `FavoriteActors`
(parameters `page`, `per_page`) the core is called with start
`((page + 2^64 - 1) * pageSize) mod 2^64` for every `page` and `pageSize`; a
request with `page = 0` is neither rejected nor clamped and gets the start
`(2^64 - pageSize) mod 2^64`. -/
theorem films.pagination_wraps (core : films.Core) (r : Request) (hm : r.Method = MethodGet) :
    (∀ page pageSize genreId,
      page = (ParseUint (r.Query.Get "page")).getD 1 →
      pageSize = (ParseUint (r.Query.Get "page_size")).getD 8 →
      genreId = (ParseUint (r.Query.Get "collection_id")).getD 0 →
      (films.Films core r).calls
        = [.GetFilmsAndGenreTitle genreId (((page + 2 ^ 64 - 1) * pageSize) % 2 ^ 64)
            pageSize] ∧
      (page = 0 → (films.Films core r).calls
        = [.GetFilmsAndGenreTitle genreId ((2 ^ 64 - pageSize) % 2 ^ 64) pageSize])) ∧
    (∀ u page pageSize, r.ctx.Value .UserIDKey = some (.uint64 u) →
      page = (ParseUint (r.Query.Get "page")).getD 1 →
      pageSize = (ParseUint (r.Query.Get "per_page")).getD 8 →
      (films.FavoriteFilms core.toICore r).calls
        = [.FavoriteFilms u (((page + 2 ^ 64 - 1) * pageSize) % 2 ^ 64) pageSize] ∧
      (films.FavoriteActors core.toICore r).calls
        = [.FavoriteActors u (((page + 2 ^ 64 - 1) * pageSize) % 2 ^ 64) pageSize] ∧
      (page = 0 →
        (films.FavoriteFilms core.toICore r).calls
          = [.FavoriteFilms u ((2 ^ 64 - pageSize) % 2 ^ 64) pageSize] ∧
        (films.FavoriteActors core.toICore r).calls
          = [.FavoriteActors u ((2 ^ 64 - pageSize) % 2 ^ 64) pageSize])) := by
  constructor
  · intro page pageSize genreId hpage hsize hgenre
    have hcalls : (films.Films core r).calls
        = [.GetFilmsAndGenreTitle genreId (films.pageStart page pageSize) pageSize] := by
      rcases hc : core.GetFilmsAndGenreTitle genreId (films.pageStart page pageSize) pageSize
        with ⟨fs, g, _ | e⟩ <;>
        simp [films.Films, hm, ← hpage, ← hsize, ← hgenre, hc, Run.calls, SendResponse]
    refine ⟨by rw [hcalls, films.pageStart_eq_mod], fun h0 => ?_⟩
    have hs : pageSize < 2 ^ 64 := by
      rw [hsize]
      exact ParseUint_getD_lt _ 8 (by norm_num)
    rw [hcalls, h0, films.pageStart_zero pageSize hs]
  · intro u page pageSize hu hpage hsize
    have hf : (films.FavoriteFilms core.toICore r).calls
        = [.FavoriteFilms u (films.pageStart page pageSize) pageSize] := by
      rcases hc : core.FavoriteFilms u (films.pageStart page pageSize) pageSize
        with ⟨fs, _ | e⟩ <;>
        simp [films.FavoriteFilms, hm, films.userIdOf, hu, ← hpage, ← hsize, hc, Run.calls,
          SendResponse]
    have ha : (films.FavoriteActors core.toICore r).calls
        = [.FavoriteActors u (films.pageStart page pageSize) pageSize] := by
      rcases hc : core.FavoriteActors u (films.pageStart page pageSize) pageSize
        with ⟨fs, _ | e⟩ <;>
        simp [films.FavoriteActors, hm, films.userIdOf, hu, ← hpage, ← hsize, hc, Run.calls,
          SendResponse]
    have hs : pageSize < 2 ^ 64 := by
      rw [hsize]
      exact ParseUint_getD_lt _ 8 (by norm_num)
    refine ⟨by rw [hf, films.pageStart_eq_mod], by rw [ha, films.pageStart_eq_mod],
      fun h0 => ?_⟩
    rw [hf, ha, h0, films.pageStart_zero pageSize hs]
    exact ⟨rfl, rfl⟩

/-- Witness of C18: `page=0&per_page=8` for user 7 is the call with start
18446744073709551608. -/
theorem films.pagination_wraps_witness :
    favoritesPageZero.Method = MethodGet ∧
    favoritesPageZero.ctx.Value .UserIDKey = some (.uint64 7) ∧
    (0 : Nat) = (ParseUint (favoritesPageZero.Query.Get "page")).getD 1 ∧
    (8 : Nat) = (ParseUint (favoritesPageZero.Query.Get "per_page")).getD 8 ∧
    (2 ^ 64 - 8) % 2 ^ 64 = 18446744073709551608 ∧
    (films.FavoriteFilms catalogCoreWhole.toICore favoritesPageZero).calls
      = [.FavoriteFilms 7 ((2 ^ 64 - 8) % 2 ^ 64) 8] ∧
    (films.FavoriteActors catalogCoreWhole.toICore favoritesPageZero).calls
      = [.FavoriteActors 7 ((2 ^ 64 - 8) % 2 ^ 64) 8] :=
  ⟨by decide, by decide, by decide, by decide, by norm_num,
    (((films.pagination_wraps catalogCoreWhole favoritesPageZero (by decide)).2 7 0 8
      (by decide) (by decide) (by decide)).2.2 rfl).1,
    (((films.pagination_wraps catalogCoreWhole favoritesPageZero (by decide)).2 7 0 8
      (by decide) (by decide) (by decide)).2.2 rfl).2⟩

/-! ## Profile edit and metrics -/

/-- C15 (defect of the code): when the multipart form of a profile POST does
not parse, `Profile` logs `err.Error()` of the error of `GetUserName`. With a
`GetUserName` that succeeded that error is `nil` and the call panics: after
the one core call no envelope is sent, so no 400. With a `GetUserName` that
failed the form error is answered 400. -/
theorem authorization.Profile_bad_form_panics (os : Os) :
    profilePostBadForm.Method = MethodPost ∧
    profilePostBadForm.Cookie "session_id" = some { Name := "session_id", Value := "S" } ∧
    profilePostBadForm.Form = none ∧
    identityCoreWhole.GetUserName "S" = ("alice", none) ∧
    authorization.Profile identityCoreWhole os profilePostBadForm
      = { events := [.call (.GetUserName "S")], panicked := true } ∧
    (authorization.Profile identityCoreWhole os profilePostBadForm).sent = [] ∧
    (authorization.Profile { identityCoreWhole with
        GetUserName := fun _ => ("", some ErrNotFound) } os profilePostBadForm).sent
      = [(StatusBadRequest, .nil)] := by
  refine ⟨by decide, by decide, by decide, by decide, ?_, ?_, ?_⟩ <;> rfl

/-- C16 (defect of the code): `AuthCheck` returns right after the wrapped
handler on a request without cookie and on a cookie that does not resolve.
For a handler that sets the status key, the request whose cookie resolves
records one observation and one hit, and both other requests record none;
`CollectMetrics` records one of each on the same request without cookie. -/
theorem middleware.AuthCheck_skips_metrics :
    (middleware.AuthCheck (answering 200) sessionOfUser7 favoriteAddWithCookie).observations
      = [(200, "/api/v1/favorite/film/add")] ∧
    (middleware.AuthCheck (answering 200) sessionOfUser7 favoriteAddWithCookie).hits
      = [(200, "/api/v1/favorite/film/add")] ∧
    anonymousGet.Cookie "session_id" = none ∧
    (middleware.AuthCheck (answering 401) sessionOfUser7 anonymousGet).served
      = [anonymousGet] ∧
    (middleware.AuthCheck (answering 401) sessionOfUser7 anonymousGet).observations = [] ∧
    (middleware.AuthCheck (answering 401) sessionOfUser7 anonymousGet).hits = [] ∧
    (sessionOfUser7.GetUserId "gone").2 = some ErrNotFound ∧
    (middleware.AuthCheck (answering 401) sessionOfUser7 favoriteAddStaleCookie).served
      = [favoriteAddStaleCookie] ∧
    (middleware.AuthCheck (answering 401) sessionOfUser7 favoriteAddStaleCookie).observations
      = [] ∧
    (middleware.AuthCheck (answering 401) sessionOfUser7 favoriteAddStaleCookie).hits = [] ∧
    (middleware.CollectMetrics (answering 401) anonymousGet).observations
      = [(401, "/api/v1/favorite/film/add")] ∧
    (middleware.CollectMetrics (answering 401) anonymousGet).hits
      = [(401, "/api/v1/favorite/film/add")] := by
  refine ⟨?_, ?_, by decide, ?_, ?_, ?_, by decide, ?_, ?_, ?_, ?_, ?_⟩ <;> rfl

/-! ## The envelope invariant -/

theorem authorization.LogoutSession_envelope (core : authorization.ICore) (loc : Location)
    (now : Time) (r : Request) : (authorization.LogoutSession core loc now r).EnvelopeOk := by
  simp only [authorization.LogoutSession]
  repeat' split
  all_goals simp [Run.EnvelopeOk, Run.sent, SendResponse]

theorem authorization.AuthAccept_envelope (core : authorization.ICore) (r : Request) :
    (authorization.AuthAccept core r).EnvelopeOk := by
  simp only [authorization.AuthAccept]
  repeat' split
  all_goals simp [Run.EnvelopeOk, Run.sent, SendResponse, StatusOK]

theorem authorization.Signin_envelope (core : authorization.ICore) (json : Json)
    (r : Request) : (authorization.Signin core json r).EnvelopeOk := by
  simp only [authorization.Signin]
  repeat' split
  all_goals simp [Run.EnvelopeOk, Run.sent, SendResponse]

theorem authorization.Signup_envelope (core : authorization.ICore) (json : Json)
    (r : Request) : (authorization.Signup core json r).EnvelopeOk := by
  simp only [authorization.Signup]
  repeat' split
  all_goals simp [Run.EnvelopeOk, Run.sent, SendResponse]

theorem authorization.GetCsrfToken_envelope (core : authorization.Core) (r : Request) :
    (authorization.GetCsrfToken core r).EnvelopeOk := by
  simp only [authorization.GetCsrfToken]
  repeat' split
  all_goals simp [Run.EnvelopeOk, Run.sent, SendResponse]

theorem authorization.Profile_envelope (core : authorization.Core) (os : Os) (r : Request) :
    (authorization.Profile core os r).EnvelopeOk := by
  simp only [authorization.Profile, authorization.ProfileGet, authorization.ProfilePost]
  repeat' split
  all_goals simp [Run.EnvelopeOk, Run.sent, SendResponse, logIfError, StatusOK]
  all_goals (try split) <;> simp

theorem films.Films_envelope (core : films.Core) (r : Request) :
    (films.Films core r).EnvelopeOk := by
  simp only [films.Films]
  repeat' split
  all_goals simp [Run.EnvelopeOk, Run.sent, SendResponse, StatusOK]

theorem films.Film_envelope (core : films.Core) (r : Request) :
    (films.Film core r).EnvelopeOk := by
  simp only [films.Film]
  repeat' split
  all_goals simp [Run.EnvelopeOk, Run.sent, SendResponse, StatusOK]

theorem films.Actor_envelope (core : films.Core) (r : Request) :
    (films.Actor core r).EnvelopeOk := by
  simp only [films.Actor]
  repeat' split
  all_goals simp [Run.EnvelopeOk, Run.sent, SendResponse, StatusOK]

theorem films.Calendar_envelope (core : films.Core) (r : Request) :
    (films.Calendar core r).EnvelopeOk := by
  simp only [films.Calendar]
  repeat' split
  all_goals simp [Run.EnvelopeOk, Run.sent, SendResponse, StatusOK]

theorem films.FavoriteFilmsAdd_envelope (core : films.ICore) (r : Request) :
    (films.FavoriteFilmsAdd core r).EnvelopeOk := by
  simp only [films.FavoriteFilmsAdd]
  repeat' split
  all_goals simp [Run.EnvelopeOk, Run.sent, SendResponse]

theorem films.FavoriteFilmsRemove_envelope (core : films.ICore) (r : Request) :
    (films.FavoriteFilmsRemove core r).EnvelopeOk := by
  simp only [films.FavoriteFilmsRemove]
  repeat' split
  all_goals simp [Run.EnvelopeOk, Run.sent, SendResponse]

theorem films.FavoriteFilms_envelope (core : films.ICore) (r : Request) :
    (films.FavoriteFilms core r).EnvelopeOk := by
  simp only [films.FavoriteFilms]
  repeat' split
  all_goals simp [Run.EnvelopeOk, Run.sent, SendResponse, StatusOK]

theorem films.FavoriteActorsAdd_envelope (core : films.ICore) (r : Request) :
    (films.FavoriteActorsAdd core r).EnvelopeOk := by
  simp only [films.FavoriteActorsAdd]
  repeat' split
  all_goals simp [Run.EnvelopeOk, Run.sent, SendResponse]

theorem films.FavoriteActorsRemove_envelope (core : films.ICore) (r : Request) :
    (films.FavoriteActorsRemove core r).EnvelopeOk := by
  simp only [films.FavoriteActorsRemove]
  repeat' split
  all_goals simp [Run.EnvelopeOk, Run.sent, SendResponse]

theorem films.FavoriteActors_envelope (core : films.ICore) (r : Request) :
    (films.FavoriteActors core r).EnvelopeOk := by
  simp only [films.FavoriteActors]
  repeat' split
  all_goals simp [Run.EnvelopeOk, Run.sent, SendResponse, StatusOK]

theorem films.FindFilm_envelope (core : films.Core)
    (unmarshal : String → Option FindFilmRequest) (r : Request) :
    (films.FindFilm core unmarshal r).EnvelopeOk := by
  simp only [films.FindFilm]
  repeat' split
  all_goals simp [Run.EnvelopeOk, Run.sent, SendResponse, StatusOK]

theorem films.FindActor_envelope (core : films.Core)
    (unmarshal : String → Option FindActorRequest) (r : Request) :
    (films.FindActor core unmarshal r).EnvelopeOk := by
  simp only [films.FindActor]
  repeat' split
  all_goals simp [Run.EnvelopeOk, Run.sent, SendResponse, StatusOK]

theorem films.AddRating_envelope (core : films.ICore) (json : Json) (r : Request) :
    (films.AddRating core json r).EnvelopeOk := by
  simp only [films.AddRating]
  repeat' split
  all_goals simp [Run.EnvelopeOk, Run.sent, SendResponse]

theorem films.AddFilm_envelope (core : films.Core) (os : Os) (r : Request) :
    (films.AddFilm core os r).EnvelopeOk := by
  simp only [films.AddFilm]
  repeat' split
  all_goals simp [Run.EnvelopeOk, Run.sent, SendResponse]

/-- C14: the envelope invariant. For every handler of the identity service
(`LogoutSession`, `AuthAccept`, `Signin`, `Signup`, `GetCsrfToken`, `Profile`)
and of the catalog service (`Films`, `Film`, `Actor`, `FindFilm`, `FindActor`,
`Calendar`, `AddRating`, `AddFilm` and the six favorites handlers), for every
request and every outcome of the core calls, of the decoders, of the clock
and its location and of the file system, every envelope sent with a status other than 200 has
the `nil` body, and every envelope with another body has status 200. -/
theorem envelope_invariant (identity : authorization.Core) (catalog : films.Core)
    (json : Json) (unmarshalFilm : String → Option FindFilmRequest)
    (unmarshalActor : String → Option FindActorRequest) (os : Os) (loc : Location)
    (now : Time) (r : Request) :
    (authorization.LogoutSession identity.toICore loc now r).EnvelopeOk ∧
    (authorization.AuthAccept identity.toICore r).EnvelopeOk ∧
    (authorization.Signin identity.toICore json r).EnvelopeOk ∧
    (authorization.Signup identity.toICore json r).EnvelopeOk ∧
    (authorization.GetCsrfToken identity r).EnvelopeOk ∧
    (authorization.Profile identity os r).EnvelopeOk ∧
    (films.Films catalog r).EnvelopeOk ∧
    (films.Film catalog r).EnvelopeOk ∧
    (films.Actor catalog r).EnvelopeOk ∧
    (films.FindFilm catalog unmarshalFilm r).EnvelopeOk ∧
    (films.FindActor catalog unmarshalActor r).EnvelopeOk ∧
    (films.Calendar catalog r).EnvelopeOk ∧
    (films.AddRating catalog.toICore json r).EnvelopeOk ∧
    (films.AddFilm catalog os r).EnvelopeOk ∧
    (films.FavoriteFilmsAdd catalog.toICore r).EnvelopeOk ∧
    (films.FavoriteFilmsRemove catalog.toICore r).EnvelopeOk ∧
    (films.FavoriteFilms catalog.toICore r).EnvelopeOk ∧
    (films.FavoriteActorsAdd catalog.toICore r).EnvelopeOk ∧
    (films.FavoriteActorsRemove catalog.toICore r).EnvelopeOk ∧
    (films.FavoriteActors catalog.toICore r).EnvelopeOk :=
  ⟨authorization.LogoutSession_envelope _ loc now r,
    authorization.AuthAccept_envelope _ r,
    authorization.Signin_envelope _ json r,
    authorization.Signup_envelope _ json r,
    authorization.GetCsrfToken_envelope identity r,
    authorization.Profile_envelope identity os r,
    films.Films_envelope catalog r,
    films.Film_envelope catalog r,
    films.Actor_envelope catalog r,
    films.FindFilm_envelope catalog unmarshalFilm r,
    films.FindActor_envelope catalog unmarshalActor r,
    films.Calendar_envelope catalog r,
    films.AddRating_envelope _ json r,
    films.AddFilm_envelope catalog os r,
    films.FavoriteFilmsAdd_envelope _ r,
    films.FavoriteFilmsRemove_envelope _ r,
    films.FavoriteFilms_envelope _ r,
    films.FavoriteActorsAdd_envelope _ r,
    films.FavoriteActorsRemove_envelope _ r,
    films.FavoriteActors_envelope _ r⟩

/-! ## The comma-separated lists of `AddFilm` -/

theorem le_foldl_digits (cs : List Char) (n : Nat) :
    n ≤ cs.foldl (fun n c => n * 10 + (c.toNat - 48)) n := by
  induction cs generalizing n with
  | nil => simp
  | cons c cs ih =>
    simp only [List.foldl_cons]
    exact le_trans (by omega) (ih _)

theorem ParseUintDigits_iff (cs : List Char) (n0 n : Nat) (h0 : n0 < 2 ^ 64) :
    ParseUintDigits cs n0 = some n ↔
      (∀ c ∈ cs, c.isDigit = true) ∧ cs.foldl (fun n c => n * 10 + (c.toNat - 48)) n0 = n ∧
        n < 2 ^ 64 := by
  induction cs generalizing n0 with
  | nil =>
    simp only [ParseUintDigits, Option.some.injEq, List.not_mem_nil, false_implies,
      implies_true, List.foldl_nil, true_and]
    constructor
    · intro h
      exact ⟨h, h ▸ h0⟩
    · intro h
      exact h.1
  | cons c cs ih =>
    simp only [ParseUintDigits, List.mem_cons, forall_eq_or_imp, List.foldl_cons]
    by_cases hd : c.isDigit = true
    · simp only [hd, if_true, true_and]
      by_cases hlt : n0 * 10 + (c.toNat - 48) < 2 ^ 64
      · simp only [hlt, if_true]
        exact ih _ hlt
      · simp only [hlt, if_false]
        constructor
        · intro h
          exact absurd h (by simp)
        · intro h
          have := le_foldl_digits cs (n0 * 10 + (c.toNat - 48))
          omega
    · simp [hd]

theorem ParseUint_mk_iff (seg : List Char) (n : Nat) :
    ParseUint ⟨seg⟩ = some n ↔ IsUint64Decimal seg ∧ decimalValue seg = n := by
  unfold ParseUint IsUint64Decimal decimalValue
  by_cases hnil : seg = []
  · simp [hnil]
  · simp only [hnil, if_false, ne_eq, not_false_eq_true, true_and]
    rw [ParseUintDigits_iff seg 0 n (by norm_num)]
    constructor
    · rintro ⟨hd, hv, hlt⟩
      exact ⟨⟨hd, hv ▸ hlt⟩, hv⟩
    · rintro ⟨⟨hd, hlt⟩, hv⟩
      exact ⟨hd, hv, hv ▸ hlt⟩

theorem parsePieces_iff (segs : List (List Char)) (l : List Nat) :
    parsePieces segs = some l ↔
      (∀ seg ∈ segs, IsUint64Decimal seg) ∧ l = segs.map decimalValue := by
  induction segs generalizing l with
  | nil =>
    simp only [parsePieces, Option.some.injEq, List.not_mem_nil, false_implies, implies_true,
      List.map_nil, true_and]
    exact eq_comm
  | cons seg segs ih =>
    simp only [parsePieces, List.mem_cons, forall_eq_or_imp, List.map_cons]
    rcases hp : ParseUint ⟨seg⟩ with _ | id
    · constructor
      · intro h
        exact absurd h (by simp)
      · rintro ⟨hdec, _⟩
        have := (ParseUint_mk_iff seg (decimalValue seg)).2 ⟨hdec.1, rfl⟩
        rw [hp] at this
        exact absurd this (by simp)
    · have hid := (ParseUint_mk_iff seg id).1 hp
      rcases hq : parsePieces segs with _ | ids
      · constructor
        · intro h
          exact absurd h (by simp)
        · rintro ⟨hdec, _⟩
          have := (ih (segs.map decimalValue)).2 ⟨hdec.2, rfl⟩
          rw [hq] at this
          exact absurd this (by simp)
      · have hids := (ih ids).1 hq
        simp only [Option.some.injEq]
        constructor
        · intro h
          exact ⟨⟨hid.1, hids.1⟩, by rw [← h, hid.2, hids.2]⟩
        · rintro ⟨_, h⟩
          rw [h, hid.2, hids.2]

theorem get?_append_length (pre : List Char) (c : Char) (cs : List Char) :
    (pre ++ c :: cs).get? pre.length = some c := by
  induction pre with
  | nil => rfl
  | cons a pre ih => simpa using ih

theorem take_drop_append (pre rest : List Char) (prev : Nat) (h : prev ≤ pre.length) :
    ((pre ++ rest).drop prev).take (pre.length - prev) = pre.drop prev := by
  rw [List.drop_append_of_le_length h]
  have hl : (pre.drop prev).length = pre.length - prev := List.length_drop prev pre
  rw [← hl]
  exact List.take_left' rfl

theorem films.parseIdsLoop_pieces (s : List Char) (rest : List Char) :
    ∀ (pre : List Char) (prev : Nat) (ids : List Nat),
      s = pre ++ rest → prev ≤ pre.length → (∀ c ∈ pre.drop prev, ¬ ((c == ',') = true)) →
      (match films.parseIdsLoop s rest.length pre.length prev ids with
        | none => none
        | some (prev1, ids1) =>
          match ParseUint ⟨s.drop prev1⟩ with
          | none => none
          | some id => some (ids1 ++ [id]))
      = (parsePieces ((pre.drop prev ++ rest).splitOn ',')).map (fun l => ids ++ l) := by
  induction rest with
  | nil =>
    intro pre prev ids hs hprev hno
    have hsplit : (pre.drop prev).splitOn ',' = [pre.drop prev] :=
      List.splitOnP_eq_single _ _ hno
    simp only [List.length_nil, films.parseIdsLoop, List.append_nil, hsplit, parsePieces]
    rw [hs, List.append_nil]
    rcases ParseUint ⟨pre.drop prev⟩ with _ | id <;> simp
  | cons c cs ih =>
    intro pre prev ids hs hprev hno
    have hget : s.get? pre.length = some c := by
      rw [hs]
      exact get?_append_length pre c cs
    have hslice : films.slice s prev pre.length = ⟨pre.drop prev⟩ := by
      unfold films.slice
      rw [hs, take_drop_append pre (c :: cs) prev hprev]
    have hs1 : s = (pre ++ [c]) ++ cs := by
      rw [hs]
      simp
    have hlen : (pre ++ [c]).length = pre.length + 1 := by simp
    simp only [List.length_cons, films.parseIdsLoop, hget, Option.some.injEq]
    by_cases hc : c = ','
    · subst hc
      have hsplit : (pre.drop prev ++ ',' :: cs).splitOn ','
          = pre.drop prev :: cs.splitOn ',' :=
        List.splitOnP_first _ _ hno ',' (by simp) cs
      simp only [if_true, hslice, hsplit, parsePieces]
      rcases hp : ParseUint ⟨pre.drop prev⟩ with _ | id
      · simp
      · have hdrop : (pre ++ [',']).drop (pre.length + 1) = [] := by simp
        have h := ih (pre ++ [',']) (pre.length + 1) (ids ++ [id]) hs1 (by simp)
          (by rw [hdrop]; simp)
        rw [hlen, hdrop, List.nil_append] at h
        simp only [h]
        rcases parsePieces (cs.splitOn ',') with _ | l <;> simp
    · simp only [hc, if_false]
      have hdrop : (pre ++ [c]).drop prev = pre.drop prev ++ [c] :=
        List.drop_append_of_le_length hprev
      have h := ih (pre ++ [c]) prev ids hs1 (by simp; omega)
        (by
          rw [hdrop]
          intro x hx
          rcases List.mem_append.1 hx with hx | hx
          · exact hno x hx
          · simp only [List.mem_singleton] at hx
            subst hx
            simpa using hc)
      rw [hlen, hdrop] at h
      rw [h]
      simp

theorem films.parseIds_eq_pieces (s : String) :
    films.parseIds s = parsePieces (s.data.splitOn ',') := by
  have h := films.parseIdsLoop_pieces s.data s.data [] 0 [] (by simp) (by simp) (by simp)
  simp only [List.length_nil, List.drop_nil, List.nil_append] at h
  unfold films.parseIds
  rw [h]
  rcases parsePieces (s.data.splitOn ',') with _ | l <;> simp

theorem splitOnP_append_sep (p : Char → Bool) (a : List Char) (sep : Char)
    (hsep : p sep = true) (b : List Char) :
    (a ++ sep :: b).splitOnP p = a.splitOnP p ++ b.splitOnP p := by
  induction a with
  | nil => simp [hsep]
  | cons x a ih =>
    simp only [List.cons_append, List.splitOnP_cons, ih]
    by_cases hx : p x = true
    · simp [hx]
    · simp only [hx, if_false]
      rcases hsp : a.splitOnP p with _ | ⟨hd, tl⟩
      · exact absurd hsp (List.splitOnP_ne_nil p a)
      · simp [List.modifyHead]

theorem not_IsUint64Decimal_nil : ¬ IsUint64Decimal [] := fun h => h.1 rfl

theorem parsePieces_of_nil_mem (segs : List (List Char)) (h : [] ∈ segs) :
    parsePieces segs = none := by
  rcases hp : parsePieces segs with _ | l
  · rfl
  · exact absurd (((parsePieces_iff segs l).1 hp).1 [] h) not_IsUint64Decimal_nil

theorem comma_not_mem_of_IsUint64Decimal (seg : List Char) (h : IsUint64Decimal seg) :
    ',' ∉ seg := by
  intro hmem
  have := h.2.1 ',' hmem
  exact absurd this (by decide)

theorem films.parseIds_iff (s : String) (l : List Nat) :
    films.parseIds s = some l ↔
      ∃ segs : List (List Char), segs ≠ [] ∧ s.data = [','].intercalate segs ∧
        (∀ seg ∈ segs, IsUint64Decimal seg) ∧ l = segs.map decimalValue := by
  rw [films.parseIds_eq_pieces, parsePieces_iff]
  constructor
  · rintro ⟨hdec, hl⟩
    exact ⟨s.data.splitOn ',', List.splitOnP_ne_nil _ _,
      (List.intercalate_splitOn s.data ',').symm, hdec, hl⟩
  · rintro ⟨segs, hne, hs, hdec, hl⟩
    have hsplit : s.data.splitOn ',' = segs := by
      rw [hs]
      exact List.splitOn_intercalate segs ','
        (fun seg hseg => comma_not_mem_of_IsUint64Decimal seg (hdec seg hseg)) hne
    rw [hsplit]
    exact ⟨hdec, hl⟩

theorem digitChar_digit (k : Nat) (hk : k < 10) :
    (Nat.digitChar k).isDigit = true ∧ (Nat.digitChar k).toNat - 48 = k := by
  interval_cases k <;> exact ⟨by decide, by decide⟩

theorem decimalValue_append_singleton (front : List Char) (d : Char) :
    decimalValue (front ++ [d]) = decimalValue front * 10 + (d.toNat - 48) := by
  simp [decimalValue, List.foldl_append]

theorem toDigitsCore_decimal (fuel : Nat) :
    ∀ (n : Nat) (ds : List Char), n < fuel →
      ∃ front, Nat.toDigitsCore 10 fuel n ds = front ++ ds ∧ front ≠ [] ∧
        (∀ c ∈ front, c.isDigit = true) ∧ decimalValue front = n := by
  induction fuel with
  | zero =>
    intro n ds h
    exact absurd h (Nat.not_lt_zero n)
  | succ fuel ih =>
    intro n ds h
    have hd := digitChar_digit (n % 10) (Nat.mod_lt n (by norm_num))
    simp only [Nat.toDigitsCore]
    by_cases h0 : n / 10 = 0
    · simp only [h0, if_true]
      refine ⟨[Nat.digitChar (n % 10)], rfl, by simp, ?_, ?_⟩
      · simpa using hd.1
      · have hv : decimalValue [Nat.digitChar (n % 10)]
            = (Nat.digitChar (n % 10)).toNat - 48 := by
          simp [decimalValue]
        rw [hv, hd.2]
        omega
    · simp only [h0, if_false]
      obtain ⟨front, he, _, hdig, hval⟩ := ih (n / 10) (Nat.digitChar (n % 10) :: ds)
        (by omega)
      refine ⟨front ++ [Nat.digitChar (n % 10)], by simp [he], by simp, ?_, ?_⟩
      · intro c hc
        rcases List.mem_append.1 hc with hc | hc
        · exact hdig c hc
        · simp only [List.mem_singleton] at hc
          rw [hc]
          exact hd.1
      · rw [decimalValue_append_singleton, hval, hd.2]
        omega

theorem repr_IsUint64Decimal (n : Nat) (hn : n < 2 ^ 64) :
    IsUint64Decimal (Nat.repr n).data ∧ decimalValue (Nat.repr n).data = n := by
  obtain ⟨front, he, hne, hdig, hval⟩ := toDigitsCore_decimal (n + 1) n [] (by omega)
  have hdata : (Nat.repr n).data = front := by
    show Nat.toDigitsCore 10 (n + 1) n [] = front
    rw [he, List.append_nil]
  rw [hdata]
  exact ⟨⟨hne, hdig, by rw [hval]; exact hn⟩, hval⟩

theorem films.parseIds_join (l : List Nat) (hne : l ≠ []) (hl : ∀ n ∈ l, n < 2 ^ 64) :
    films.parseIds ⟨[','].intercalate (l.map (fun n => (Nat.repr n).data))⟩ = some l := by
  rw [films.parseIds_iff]
  refine ⟨l.map (fun n => (Nat.repr n).data), by simpa using hne, rfl, ?_, ?_⟩
  · intro seg hseg
    obtain ⟨n, hn, rfl⟩ := List.mem_map.1 hseg
    exact (repr_IsUint64Decimal n (hl n hn)).1
  · rw [List.map_map]
    symm
    calc List.map (decimalValue ∘ fun n => (Nat.repr n).data) l
        = List.map id l := List.map_congr_left (fun n hn => (repr_IsUint64Decimal n (hl n hn)).2)
      _ = l := List.map_id l

theorem films.parseIds_rejects :
    films.parseIds "" = none ∧
    (∀ t : List Char, films.parseIds ⟨',' :: t⟩ = none) ∧
    (∀ t : List Char, films.parseIds ⟨t ++ [',']⟩ = none) ∧
    (∀ a b : List Char, films.parseIds ⟨a ++ ',' :: ',' :: b⟩ = none) := by
  refine ⟨by decide, fun t => ?_, fun t => ?_, fun a b => ?_⟩
  · rw [films.parseIds_eq_pieces]
    apply parsePieces_of_nil_mem
    simp [List.splitOn]
  · rw [films.parseIds_eq_pieces]
    apply parsePieces_of_nil_mem
    show [] ∈ (t ++ ',' :: []).splitOnP (fun x => x == ',')
    rw [splitOnP_append_sep _ t ',' (by simp) []]
    simp
  · rw [films.parseIds_eq_pieces]
    apply parsePieces_of_nil_mem
    show [] ∈ (a ++ ',' :: (',' :: b)).splitOnP (fun x => x == ',')
    rw [splitOnP_append_sep _ a ',' (by simp) (',' :: b)]
    simp

theorem films.AddFilm_rejects (core : films.Core) (os : Os) (r : Request) (form : Values)
    (hm : r.Method = MethodPost) (hf : r.Form = some form)
    (hbad : films.parseIds (form.Get "genre") = none ∨
      films.parseIds (form.Get "actors") = none) :
    (films.AddFilm core os r).sent = [(StatusBadRequest, .nil)] ∧
    (films.AddFilm core os r).calls = [] := by
  rcases hg : films.parseIds (form.Get "genre") with _ | genres
  · simp [films.AddFilm, hm, hf, hg, Run.sent, Run.calls, SendResponse]
  · rcases hbad with h | h
    · rw [hg] at h
      exact absurd h (by simp)
    · simp [films.AddFilm, hm, hf, hg, h, Run.sent, Run.calls, SendResponse]

theorem films.AddFilm_call_lists (core : films.Core) (os : Os) (r : Request) (film : FilmItem)
    (genres actors : List Nat)
    (h : Call.AddFilm film genres actors ∈ (films.AddFilm core os r).calls) :
    ∃ form, r.Form = some form ∧ films.parseIds (form.Get "genre") = some genres ∧
      films.parseIds (form.Get "actors") = some actors := by
  by_cases hm : r.Method = MethodPost
  swap
  · simp [films.AddFilm, hm, Run.calls, SendResponse] at h
  rcases hf : r.Form with _ | form
  · simp [films.AddFilm, hm, hf, Run.calls, SendResponse] at h
  rcases hg : films.parseIds (form.Get "genre") with _ | gs
  · simp [films.AddFilm, hm, hf, hg, Run.calls, SendResponse] at h
  rcases ha : films.parseIds (form.Get "actors") with _ | as
  · simp [films.AddFilm, hm, hf, hg, ha, Run.calls, SendResponse] at h
  refine ⟨form, rfl, ?_⟩
  rcases hfile : r.File with ⟨name, content⟩ | _ | e
  · rcases ho : os.OpenFile ("/home/ubuntu/frontend-project" ++ ("/icons/" ++ name))
      with _ | eo
    · rcases hcp : os.Copy ("/home/ubuntu/frontend-project" ++ ("/icons/" ++ name)) content
        with _ | ec
      · rcases hadd : core.AddFilm
          { Title := form.Get "title", Info := form.Get "info",
            Poster := "/icons/" ++ name, ReleaseDate := form.Get "date",
            Country := form.Get "country" } gs as with _ | ea <;>
        · simp [films.AddFilm, hm, hf, hg, ha, hfile, ho, hcp, hadd, Run.calls,
            SendResponse] at h
          rw [h.2.1, h.2.2]
          exact ⟨hg, ha⟩
      · simp [films.AddFilm, hm, hf, hg, ha, hfile, ho, hcp, Run.calls, SendResponse] at h
    · simp [films.AddFilm, hm, hf, hg, ha, hfile, ho, Run.calls, SendResponse] at h
  · simp [films.AddFilm, hm, hf, hg, ha, hfile, Run.calls, SendResponse] at h
  · simp [films.AddFilm, hm, hf, hg, ha, hfile, Run.calls, SendResponse] at h

/-- C17: the hand-rolled parse of the `genre` and `actors` fields in `AddFilm`.
It accepts a string if and only if the string is a non-empty sequence of
pieces joined by single commas in which every piece is a non-empty string of
decimal digits with value below `2^64`, and then its result is the list of
the values of the pieces from left to right; so the comma-join of the decimal
renderings of a non-empty list of numbers below `2^64` parses to that list.
The empty string, a leading comma, a trailing comma and two adjacent commas
are not accepted. When either field is not accepted the handler answers 400
and makes no core call; `core.AddFilm` is only ever called with the two
parsed lists, and is called with them when the upload goes through. -/
theorem films.AddFilm_list_parse (core : films.Core) (os : Os) (r : Request) :
    (∀ (s : String) (l : List Nat), films.parseIds s = some l ↔
      ∃ segs : List (List Char), segs ≠ [] ∧ s.data = [','].intercalate segs ∧
        (∀ seg ∈ segs, IsUint64Decimal seg) ∧ l = segs.map decimalValue) ∧
    (∀ l : List Nat, l ≠ [] → (∀ n ∈ l, n < 2 ^ 64) →
      films.parseIds ⟨[','].intercalate (l.map (fun n => (Nat.repr n).data))⟩ = some l) ∧
    (films.parseIds "" = none ∧
      (∀ t : List Char, films.parseIds ⟨',' :: t⟩ = none) ∧
      (∀ t : List Char, films.parseIds ⟨t ++ [',']⟩ = none) ∧
      (∀ a b : List Char, films.parseIds ⟨a ++ ',' :: ',' :: b⟩ = none)) ∧
    (∀ form, r.Method = MethodPost → r.Form = some form →
      (films.parseIds (form.Get "genre") = none ∨
        films.parseIds (form.Get "actors") = none) →
      (films.AddFilm core os r).sent = [(StatusBadRequest, .nil)] ∧
      (films.AddFilm core os r).calls = []) ∧
    (∀ film genres actors,
      Call.AddFilm film genres actors ∈ (films.AddFilm core os r).calls →
      ∃ form, r.Form = some form ∧ films.parseIds (form.Get "genre") = some genres ∧
        films.parseIds (form.Get "actors") = some actors) ∧
    (∀ form genres actors name content, r.Method = MethodPost → r.Form = some form →
      films.parseIds (form.Get "genre") = some genres →
      films.parseIds (form.Get "actors") = some actors →
      r.File = .file name content →
      os.OpenFile ("/home/ubuntu/frontend-project" ++ ("/icons/" ++ name)) = none →
      os.Copy ("/home/ubuntu/frontend-project" ++ ("/icons/" ++ name)) content = none →
      (films.AddFilm core os r).calls
        = [.AddFilm { Title := form.Get "title", Info := form.Get "info",
                      Poster := "/icons/" ++ name, ReleaseDate := form.Get "date",
                      Country := form.Get "country" } genres actors]) := by
  refine ⟨films.parseIds_iff, films.parseIds_join, films.parseIds_rejects,
    fun form hm hf hbad => films.AddFilm_rejects core os r form hm hf hbad,
    fun film genres actors h => films.AddFilm_call_lists core os r film genres actors h, ?_⟩
  intro form genres actors name content hm hf hg ha hfile ho hcp
  rcases hadd : core.AddFilm
    { Title := form.Get "title", Info := form.Get "info", Poster := "/icons/" ++ name,
      ReleaseDate := form.Get "date", Country := form.Get "country" } genres actors
    with _ | ea <;>
    simp [films.AddFilm, hm, hf, hg, ha, hfile, ho, hcp, hadd, Run.calls, SendResponse]

/-- Witness of C17: the film with genres `1,2` and actors `3` reaches the core
with the lists `[1, 2]` and `[3]`; with the genre list `1,` the answer is 400
and the core is not called. -/
theorem films.AddFilm_list_parse_witness :
    films.parseIds "1,2" = some [1, 2] ∧
    films.parseIds "3" = some [3] ∧
    films.parseIds "1," = none ∧
    (films.AddFilm catalogCoreWhole osOfExamples addFilmRequest).calls
      = [.AddFilm { Title := "Alien", Info := "A crew meets a creature",
                    Poster := "/icons/" ++ "alien.png", ReleaseDate := "1979-05-25",
                    Country := "US" } [1, 2] [3]] ∧
    (films.AddFilm catalogCoreWhole osOfExamples addFilmTrailingComma).sent
      = [(StatusBadRequest, .nil)] ∧
    (films.AddFilm catalogCoreWhole osOfExamples addFilmTrailingComma).calls = [] :=
  ⟨by decide, by decide, by decide,
    (films.AddFilm_list_parse catalogCoreWhole osOfExamples addFilmRequest).2.2.2.2.2
      [("title", "Alien"), ("info", "A crew meets a creature"),
        ("date", "1979-05-25"), ("country", "US"), ("genre", "1,2"), ("actors", "3")]
      [1, 2] [3] "alien.png" "poster bytes" (by decide) (by decide) (by decide) (by decide)
      (by decide) (by decide) (by decide),
    ((films.AddFilm_list_parse catalogCoreWhole osOfExamples addFilmTrailingComma).2.2.2.1
      [("title", "Alien"), ("genre", "1,"), ("actors", "3")] (by decide) (by decide)
      (Or.inl (by decide))).1,
    ((films.AddFilm_list_parse catalogCoreWhole osOfExamples addFilmTrailingComma).2.2.2.1
      [("title", "Alien"), ("genre", "1,"), ("actors", "3")] (by decide) (by decide)
      (Or.inl (by decide))).2⟩

end MwMetrics
